import Mathlib

/-!
# The control-law orchestrator of the ANCL autopilot

A shallow embedding of `src/control/Control.cc` (class `Control`).

Conventions of the embedding:

* a C++ `double` is a rational number: comparisons and the arithmetic of the
  mixing formula are exact; NaN and the infinities have no counterpart, the
  range tests of the source reject them like any value outside [0,1];
* a `heli::Controller_Mode` is the natural number of its 32-bit pattern (the
  value an `unsigned int` holds before `parse_mode` casts it); the enumeration
  has no fixed underlying type, so the comparison `mode < Num_Controller_Modes`
  is made after integral promotion to `int`, see `promoted`;
* member functions are functions on a `World`: the `Control` object, the file
  system it reads and writes, and the list of events emitted so far (log lines,
  logged vectors, mode-changed signals, control-law invocations, file writes);
* an exception leaving a member function, or behaviour the C++ leaves
  undefined, is an `Err`; the world at the point of the throw is kept;
* locks are not modelled: each member function runs to completion;
* the two control laws (`attitude_pid`, `translation_outer_pid`), the lexical
  casts and the file names are collaborators whose code is not part of
  `Control.cc`; they are the fields of `Env`.
-/

namespace Autopilot

/-! ## Data model -/

/-- A node of a rapidxml document: tag name, text value, attributes (name, value) and child nodes. -/
inductive xml_node where
  | mk (name : String) (value : String) (attributes : List (String × String))
      (children : List xml_node) : xml_node

/-- The tag of a node (`node->name()`). -/
def xml_node.name : xml_node → String
  | .mk n _ _ _ => n

/-- The text of a node (`node->value()`). -/
def xml_node.value : xml_node → String
  | .mk _ v _ _ => v

/-- The attributes of a node, in document order. -/
def xml_node.attributes : xml_node → List (String × String)
  | .mk _ _ a _ => a

/-- The child nodes, in document order (`first_node()`, `next_sibling()`). -/
def xml_node.children : xml_node → List xml_node
  | .mk _ _ _ c => c

/-- What a file holds: text that rapidxml parses to the given top-level nodes, or text it rejects. -/
inductive FileContent where
  | xml (top : List xml_node)
  | malformed

/-- The file system: the content of each path, `none` for a path that does not exist. -/
abbrev FileSystem := String → Option FileContent

/-- A `Parameter`: id, value and the id of the owning component. -/
structure Parameter where
  id : String
  value : ℚ
  compid : Nat

/-- The ways a member function ends other than by returning. -/
inductive Err where
  /-- The exception `bad_control("At least one of the vectors are not of length 6")`. -/
  | vector_length
  /-- The exception `bad_control(" Pilot mix values is out of range.")`. -/
  | mix_range
  /-- The exception `bad_control("Control: not set to valid control mode")`. -/
  | invalid_mode
  /-- A `bad_control` raised by the attitude law and not caught by `Control`. -/
  | law_failure
  /-- The exception `boost::bad_lexical_cast`. -/
  | bad_lexical_cast
  /-- The exception `rapidxml::parse_error`. -/
  | parse_error
  /-- A null dereference or an out-of-bounds write. -/
  | undefined_behaviour
  deriving DecidableEq

/-- Severity of a log line: `message()`, `warning()`, `critical()`. -/
inductive Severity where
  | message
  | warning
  | critical
  deriving DecidableEq

/-- Observable effects of the member functions, in the order they happen. The text of a log line
is the literal of the source; the operands streamed after it are not recorded. -/
inductive Event where
  | log (sev : Severity) (text : String)
  | logData (name : String) (data : List ℚ)
  | mode_changed (mode : Nat)
  | translation_invoked (reference : List ℚ)
  | attitude_invoked (reference : List ℚ)
  | file_written (path : String) (top : List xml_node)

/-- What a call of a control law (its `operator()`) leaves behind: the law's new internal state and
whether it raised `bad_control`. -/
structure LawResult (S : Type) where
  state : S
  threw : Bool

/-- The interface of `attitude_pid` that `Control` uses, over the law's internal state `A`. -/
structure attitude_pid (A : Type) where
  PARAM_ROLL_KP : String
  PARAM_ROLL_KD : String
  PARAM_ROLL_KI : String
  PARAM_PITCH_KP : String
  PARAM_PITCH_KD : String
  PARAM_PITCH_KI : String
  PARAM_ROLL_TRIM : String
  PARAM_PITCH_TRIM : String
  set_roll_proportional : A → ℚ → A
  set_roll_derivative : A → ℚ → A
  set_roll_integral : A → ℚ → A
  set_pitch_proportional : A → ℚ → A
  set_pitch_derivative : A → ℚ → A
  set_pitch_integral : A → ℚ → A
  set_roll_trim_degrees : A → ℚ → A
  set_pitch_trim_degrees : A → ℚ → A
  get_roll_trim_radians : A → ℚ
  get_pitch_trim_radians : A → ℚ
  get_control_effort : A → List ℚ
  call : A → List ℚ → LawResult A
  runnable : A → Bool
  reset : A → A
  getParameters : A → List Parameter
  parse_pid : A → xml_node → A
  get_xml_node : A → xml_node

/-- The interface of `translation_outer_pid` that `Control` uses, over the law's internal state `T`. -/
structure translation_outer_pid (T : Type) where
  PARAM_X_KP : String
  PARAM_X_KD : String
  PARAM_X_KI : String
  PARAM_Y_KP : String
  PARAM_Y_KD : String
  PARAM_Y_KI : String
  PARAM_TRAVEL : String
  set_x_proportional : T → ℚ → T
  set_x_derivative : T → ℚ → T
  set_x_integral : T → ℚ → T
  set_y_proportional : T → ℚ → T
  set_y_derivative : T → ℚ → T
  set_y_integral : T → ℚ → T
  set_scaled_travel_degrees : T → ℚ → T
  get_control_effort : T → List ℚ
  call : T → List ℚ → LawResult T
  runnable : T → Bool
  reset : T → T
  getParameters : T → List Parameter
  parse_xml_node : T → xml_node → T
  get_xml_node : T → xml_node

/-- Everything `Control.cc` takes from outside: the two control laws with their initial states,
the boost lexical casts (`none` stands for `bad_lexical_cast`), the two file names and the
constants of `heli.h` used as log name and component id. -/
structure Env (A T : Type) where
  att : attitude_pid A
  trans : translation_outer_pid T
  att_init : A
  trans_init : T
  lexical_cast_double : String → Option ℚ
  lexical_cast_unsigned : String → Option Nat
  double_to_string : ℚ → String
  mode_to_string : Nat → String
  calibration_filename : String
  controller_param_filename : String
  LOG_TRANS_ATTITUDE_REF : String
  CONTROLLER_ID : Nat

/-- Modelled from the spec: the enumeration `heli::Controller_Mode` of the absent header `heli.h`,
an ordered set of the two operating modes followed by the count sentinel. This is the first
operating mode, attitude stabilization. -/
def Mode_Attitude_Stabilization_PID : Nat := 0

/-- Modelled from the spec: the second enumerator of `heli::Controller_Mode`, position hold. -/
def Mode_Position_Hold_PID : Nat := 1

/-- Modelled from the spec: the third enumerator of `heli::Controller_Mode`, the count sentinel,
which is not an operating mode. -/
def Num_Controller_Modes : Nat := 2

/-- Modelled from the spec: the channel index `ROLL` of the absent header `heli.h`. -/
def ROLL : Nat := 0

/-- Modelled from the spec: the channel index `PITCH` of the absent header `heli.h`. -/
def PITCH : Nat := 1

/-- The parameter id `Control::PARAM_MIX_ROLL`. -/
def PARAM_MIX_ROLL : String := "MIX_ROLL"

/-- The parameter id `Control::PARAM_MIX_PITCH`. -/
def PARAM_MIX_PITCH : String := "MIX_PITCH"

/-- The data members of a `Control` object. -/
structure Control (A T : Type) where
  pilot_mix : List ℚ
  controller_mode : Nat
  reference_position : List ℚ
  roll_pitch_pid_controller : A
  x_y_pid_controller : T
  /-- The document kept from the last `loadFile` (`config_file_xml`). -/
  config_file_xml : List xml_node

/-- The object together with the file system and the events emitted so far. -/
structure World (A T : Type) where
  ctl : Control A T
  fs : FileSystem
  events : List Event

/-- The result of a member function: the world it leaves and, when it does not return normally,
the error. -/
structure Res (A T : Type) where
  world : World A T
  error : Option Err

variable {A T : Type}

/-- Append one event to the trace. -/
def World.emit (w : World A T) (e : Event) : World A T :=
  { w with events := w.events ++ [e] }

/-! ## String helpers of boost -/

/-- The characters `std::isspace` accepts in the C locale. -/
def isspace (c : Char) : Bool :=
  c = ' ' || c = '\t' || c = '\n' || c = '\x0b' || c = '\x0c' || c = '\r'

/-- The function `boost::trim`: drop the white space at both ends. -/
def trim (s : String) : String :=
  String.mk ((s.data.dropWhile isspace).reverse.dropWhile isspace).reverse

/-- The functions `boost::to_upper_copy` and `boost::to_upper`. -/
def to_upper (s : String) : String :=
  String.mk (s.data.map Char.toUpper)

/-! ## Mixing -/

/-- The call `blas::vector::resize(n)` with the default `preserve = true`: the first `n` entries are kept,
missing ones are value-initialised. -/
def resize (v : List ℚ) (n : Nat) : List ℚ :=
  (v ++ List.replicate n 0).take n

/-- The mixing loop of `get_control_effort` from index `i` on, `k` iterations left:
`control_output` is filled entry by entry and the first weight outside [0,1] stops the loop. -/
def mix_loop (pilot_mix pilot_inputs control_effort : List ℚ) :
    Nat → Nat → List ℚ → Except Err (List ℚ)
  | 0, _, control_output => .ok control_output
  | k + 1, i, control_output =>
    if !(decide (pilot_mix.getD i 0 ≥ 0) && decide (pilot_mix.getD i 0 ≤ 1)) then
      .error Err.mix_range
    else
      mix_loop pilot_mix pilot_inputs control_effort k (i + 1)
        (control_output.set i
          (pilot_mix.getD i 0 * pilot_inputs.getD i 0
            + (1 - pilot_mix.getD i 0) * control_effort.getD i 0))

/-- Member function `Control::get_control_effort`, given what `RCTrans::getScaledVector()` returns. The result is
the returned vector or the exception, together with the events logged. -/
def get_control_effort (env : Env A T) (w : World A T) (pilot_inputs : List ℚ) :
    Except Err (List ℚ) × World A T :=
  let control_effort := resize (env.att.get_control_effort w.ctl.roll_pitch_pid_controller) 6
  if !(pilot_inputs.length == control_effort.length && pilot_inputs.length == 6
      && pilot_inputs.length == w.ctl.pilot_mix.length) then
    (.error Err.vector_length, w)
  else
    match mix_loop w.ctl.pilot_mix pilot_inputs control_effort 6 0 (List.replicate 6 0) with
    | .error e => (.error e, w)
    | .ok control_output =>
      (.ok control_output,
        (w.emit (Event.logData "Control Effort" control_effort)).emit
          (Event.logData "Mixed Control Output" control_output))

/-! ## Setters -/

/-- Member function `Control::set_roll_mix`. -/
def set_roll_mix (w : World A T) (roll_mix : ℚ) : World A T :=
  if roll_mix ≤ 1 ∧ roll_mix ≥ 0 then
    World.emit { w with ctl := { w.ctl with pilot_mix := w.ctl.pilot_mix.set ROLL roll_mix } }
      (Event.log Severity.message "Changed roll pilot mix to: ")
  else
    w.emit (Event.log Severity.message "Invalid roll mix argument: ")

/-- Member function `Control::set_pitch_mix`. -/
def set_pitch_mix (w : World A T) (pitch_mix : ℚ) : World A T :=
  if pitch_mix ≤ 1 ∧ pitch_mix ≥ 0 then
    World.emit { w with ctl := { w.ctl with pilot_mix := w.ctl.pilot_mix.set PITCH pitch_mix } }
      (Event.log Severity.message "Changed pitch pilot mix to: ")
  else
    w.emit (Event.log Severity.message "Invalid pitch mix argument: ")

/-- Member function `Control::getModeString`. -/
def getModeString (mode : Nat) : String :=
  if mode = Mode_Attitude_Stabilization_PID then "MODE_ATTITUDE_STABILIZATION_PID"
  else if mode = Mode_Position_Hold_PID then "MODE_POSITION_HOLD_PID"
  else ""

/-- The `int` that integral promotion makes of a mode. The values of the enumeration fit `int`,
so both operands of `mode < heli::Num_Controller_Modes` are promoted to `int`: a 32-bit pattern
with the top bit set, which `parse_mode` can cast from an `unsigned int`, is a negative number. -/
def promoted (mode : Nat) : Int :=
  if mode % 2 ^ 32 < 2 ^ 31 then ((mode % 2 ^ 32 : Nat) : Int)
  else ((mode % 2 ^ 32 : Nat) : Int) - 2 ^ 32

/-- Member function `Control::set_controller_mode`. The guard is the signed comparison of the
promoted operands. -/
def set_controller_mode (w : World A T) (mode : Nat) : World A T :=
  if promoted mode < promoted Num_Controller_Modes then
    let mode_changed : Bool := decide (w.ctl.controller_mode ≠ mode)
    let w1 : World A T := { w with ctl := { w.ctl with controller_mode := mode } }
    if mode_changed then
      (w1.emit (Event.mode_changed mode)).emit
        (Event.log Severity.warning "Controller mode changed to: ")
    else
      w1
  else
    w

/-- Member function `Control::set_reference_position`, given what `IMU::get_ned_position()` returns. -/
def set_reference_position (w : World A T) (reference : List ℚ) : World A T :=
  World.emit { w with ctl := { w.ctl with reference_position := reference } }
    (Event.log Severity.message "Control: Position reference set to: ")

/-- Member function `Control::reset`. -/
def reset (env : Env A T) (w : World A T) : World A T :=
  { w with ctl := { w.ctl with
      x_y_pid_controller := env.trans.reset w.ctl.x_y_pid_controller
      roll_pitch_pid_controller := env.att.reset w.ctl.roll_pitch_pid_controller } }

/-- Member function `Control::runnable`. -/
def runnable (env : Env A T) (w : World A T) : Bool :=
  env.att.runnable w.ctl.roll_pitch_pid_controller

/-- Member function `Control::getParameters`. -/
def getParameters (env : Env A T) (w : World A T) : List Parameter :=
  let plist : List Parameter :=
    [Parameter.mk PARAM_MIX_ROLL (w.ctl.pilot_mix.getD ROLL 0) env.CONTROLLER_ID,
     Parameter.mk PARAM_MIX_PITCH (w.ctl.pilot_mix.getD PITCH 0) env.CONTROLLER_ID]
  let controller_params := env.att.getParameters w.ctl.roll_pitch_pid_controller
  let translation_controller_params := env.trans.getParameters w.ctl.x_y_pid_controller
  (plist ++ controller_params) ++ translation_controller_params

/-! ## Persistence -/

/-- The document `Control::saveFile` builds: the root `controller_params` with the two law nodes,
the two `mix` nodes and the `mode` node. -/
def saveFile_document (env : Env A T) (c : Control A T) : List xml_node :=
  [xml_node.mk "controller_params" "" []
    [env.att.get_xml_node c.roll_pitch_pid_controller,
     env.trans.get_xml_node c.x_y_pid_controller,
     xml_node.mk "mix" (env.double_to_string (c.pilot_mix.getD ROLL 0)) [("channel", "roll")] [],
     xml_node.mk "mix" (env.double_to_string (c.pilot_mix.getD PITCH 0)) [("channel", "pitch")] [],
     xml_node.mk "mode" (env.mode_to_string c.controller_mode) [] []]]

/-- Member function `Control::saveFile`: the document replaces the content of `controller_param_filename`. -/
def saveFile (env : Env A T) (w : World A T) : World A T :=
  World.emit
    { w with fs := fun path =>
        if path = env.controller_param_filename then
          some (FileContent.xml (saveFile_document env w.ctl))
        else w.fs path }
    (Event.file_written env.controller_param_filename (saveFile_document env w.ctl))

/-- Replace the attitude law's state. -/
def World.with_attitude (w : World A T) (a : A) : World A T :=
  { w with ctl := { w.ctl with roll_pitch_pid_controller := a } }

/-- Replace the translation law's state. -/
def World.with_translation (w : World A T) (t : T) : World A T :=
  { w with ctl := { w.ctl with x_y_pid_controller := t } }

/-- The `if`/`else if` chain of `Control::setParameter` on the trimmed id: the world after the
setter that the id selects, `none` when the chain reaches its final `else`. -/
def setParameter_dispatch (env : Env A T) (w : World A T) (param_id : String) (value : ℚ) :
    Option (World A T) :=
  if param_id = env.att.PARAM_ROLL_KP then
    some (w.with_attitude (env.att.set_roll_proportional w.ctl.roll_pitch_pid_controller value))
  else if param_id = env.att.PARAM_ROLL_KD then
    some (w.with_attitude (env.att.set_roll_derivative w.ctl.roll_pitch_pid_controller value))
  else if param_id = env.att.PARAM_ROLL_KI then
    some (w.with_attitude (env.att.set_roll_integral w.ctl.roll_pitch_pid_controller value))
  else if param_id = env.att.PARAM_PITCH_KP then
    some (w.with_attitude (env.att.set_pitch_proportional w.ctl.roll_pitch_pid_controller value))
  else if param_id = env.att.PARAM_PITCH_KD then
    some (w.with_attitude (env.att.set_pitch_derivative w.ctl.roll_pitch_pid_controller value))
  else if param_id = env.att.PARAM_PITCH_KI then
    some (w.with_attitude (env.att.set_pitch_integral w.ctl.roll_pitch_pid_controller value))
  else if param_id = PARAM_MIX_ROLL then
    some (set_roll_mix w value)
  else if param_id = PARAM_MIX_PITCH then
    some (set_pitch_mix w value)
  else if param_id = env.att.PARAM_ROLL_TRIM then
    some (w.with_attitude (env.att.set_roll_trim_degrees w.ctl.roll_pitch_pid_controller value))
  else if param_id = env.att.PARAM_PITCH_TRIM then
    some (w.with_attitude (env.att.set_pitch_trim_degrees w.ctl.roll_pitch_pid_controller value))
  else if param_id = env.trans.PARAM_X_KP then
    some (w.with_translation (env.trans.set_x_proportional w.ctl.x_y_pid_controller value))
  else if param_id = env.trans.PARAM_X_KD then
    some (w.with_translation (env.trans.set_x_derivative w.ctl.x_y_pid_controller value))
  else if param_id = env.trans.PARAM_X_KI then
    some (w.with_translation (env.trans.set_x_integral w.ctl.x_y_pid_controller value))
  else if param_id = env.trans.PARAM_Y_KP then
    some (w.with_translation (env.trans.set_y_proportional w.ctl.x_y_pid_controller value))
  else if param_id = env.trans.PARAM_Y_KD then
    some (w.with_translation (env.trans.set_y_derivative w.ctl.x_y_pid_controller value))
  else if param_id = env.trans.PARAM_Y_KI then
    some (w.with_translation (env.trans.set_y_integral w.ctl.x_y_pid_controller value))
  else if param_id = env.trans.PARAM_TRAVEL then
    some (w.with_translation (env.trans.set_scaled_travel_degrees w.ctl.x_y_pid_controller value))
  else
    none

/-- Member function `Control::setParameter`: an unknown id is logged and the function returns; after every other
id the file is saved. -/
def setParameter (env : Env A T) (w : World A T) (p : Parameter) : World A T :=
  match setParameter_dispatch env w (trim p.id) p.value with
  | none => w.emit (Event.log Severity.warning "Control::setParameter - unknown parameter: ")
  | some w1 => saveFile env w1

/-- The attribute search of `Control::parse_pilot_mix`: the value of the first attribute whose name
is `channel`, `none` when the search ends on the null pointer. -/
def find_channel : List (String × String) → Option String
  | [] => none
  | (name, value) :: rest => if name ≠ "channel" then find_channel rest else some value

/-- Member function `Control::parse_pilot_mix`. -/
def parse_pilot_mix (env : Env A T) (w : World A T) (mix : xml_node) : Res A T :=
  let mix_value := trim mix.value
  match find_channel mix.attributes with
  | none => { world := w, error := some Err.undefined_behaviour }
  | some attr_value =>
    let channel := to_upper attr_value
    if channel = "ROLL" then
      match env.lexical_cast_double mix_value with
      | none => { world := w, error := some Err.bad_lexical_cast }
      | some v => { world := set_roll_mix w v, error := none }
    else if channel = "PITCH" then
      match env.lexical_cast_double mix_value with
      | none => { world := w, error := some Err.bad_lexical_cast }
      | some v => { world := set_pitch_mix w v, error := none }
    else
      { world := w, error := none }

/-- Member function `Control::parse_mode`. -/
def parse_mode (env : Env A T) (w : World A T) (mode : xml_node) : Res A T :=
  let mode_value := trim mode.value
  match env.lexical_cast_unsigned mode_value with
  | none => { world := w, error := some Err.bad_lexical_cast }
  | some m => { world := set_controller_mode w m, error := none }

/-- The body of the child loop of `Control::loadFile` for one node. -/
def loadFile_node (env : Env A T) (w : World A T) (node : xml_node) : Res A T :=
  let node_name := node.name
  if to_upper node_name = "MIX" then
    parse_pilot_mix env w node
  else if to_upper node_name = "MODE" then
    parse_mode env w node
  else if node_name = "attitude_pid" then
    { world := w.with_attitude (env.att.parse_pid w.ctl.roll_pitch_pid_controller node),
      error := none }
  else if node_name = "translation_outer_pid" then
    { world := w.with_translation (env.trans.parse_xml_node w.ctl.x_y_pid_controller node),
      error := none }
  else
    { world := w.emit (Event.log Severity.warning "Found unknown node: "), error := none }

/-- The child loop of `Control::loadFile`: the nodes are handled in document order and an
exception ends the loop. -/
def loadFile_children (env : Env A T) (w : World A T) : List xml_node → Res A T
  | [] => { world := w, error := none }
  | node :: rest =>
    match loadFile_node env w node with
    | { world := w1, error := none } => loadFile_children env w1 rest
    | r => r

/-- Member function `Control::loadFile`. The existence test is made on `heli::calibration_filename`, the file
opened is `heli::controller_param_filename`. Opening a file that does not exist gives the length
-1 and a write before the buffer; a document without a root node gives a null dereference. -/
def loadFile (env : Env A T) (w : World A T) : Res A T :=
  if (w.fs env.calibration_filename).isNone then
    { world := w.emit (Event.log Severity.warning "Cannot find controller parameter xml file: "),
      error := none }
  else
    match w.fs env.controller_param_filename with
    | none => { world := w, error := some Err.undefined_behaviour }
    | some FileContent.malformed => { world := w, error := some Err.parse_error }
    | some (FileContent.xml top) =>
      let w1 : World A T := { w with ctl := { w.ctl with config_file_xml := top } }
      match top.head? with
      | none => { world := w1, error := some Err.undefined_behaviour }
      | some root_node =>
        if to_upper root_node.name ≠ "CONTROLLER_PARAMS" then
          { world := w1.emit (Event.log Severity.critical
              "Control::loadFile() Unknown file format.  Cannot load controller parameters."),
            error := none }
        else
          loadFile_children env w1 root_node.children

/-! ## The tick -/

/-- The fallback of the position-hold branch: the warning, then the change of mode. -/
def tick_fallback (w : World A T) (text : String) : World A T :=
  set_controller_mode (w.emit (Event.log Severity.warning text))
    Mode_Attitude_Stabilization_PID

/-- Member function `Control::operator()`, the periodic tick. -/
def tick (env : Env A T) (w : World A T) : Res A T :=
  if w.ctl.controller_mode = Mode_Position_Hold_PID then
    if env.trans.runnable w.ctl.x_y_pid_controller then
      let r := env.trans.call w.ctl.x_y_pid_controller w.ctl.reference_position
      let w1 := (w.emit (Event.translation_invoked w.ctl.reference_position)).with_translation
        r.state
      if r.threw then
        { world := tick_fallback w1
            "Caught exception from Translational PID, switching to attitude stabilization mode",
          error := none }
      else
        let roll_pitch_reference := env.trans.get_control_effort w1.ctl.x_y_pid_controller
        let w2 := w1.emit (Event.logData env.LOG_TRANS_ATTITUDE_REF roll_pitch_reference)
        let r2 := env.att.call w2.ctl.roll_pitch_pid_controller roll_pitch_reference
        let w3 := (w2.emit (Event.attitude_invoked roll_pitch_reference)).with_attitude r2.state
        if r2.threw then
          { world := tick_fallback w3
              "Caught exception from Translational PID, switching to attitude stabilization mode",
            error := none }
        else
          { world := w3, error := none }
    else
      { world := tick_fallback w
          "Control: translation controller reports it is not runnable.  Switching to attitude control.",
        error := none }
  else if w.ctl.controller_mode = Mode_Attitude_Stabilization_PID then
    let roll_pitch_reference : List ℚ :=
      ((List.replicate 2 0).set ROLL
        (env.att.get_roll_trim_radians w.ctl.roll_pitch_pid_controller)).set PITCH
        (env.att.get_pitch_trim_radians w.ctl.roll_pitch_pid_controller)
    let r := env.att.call w.ctl.roll_pitch_pid_controller roll_pitch_reference
    let w1 := (w.emit (Event.attitude_invoked roll_pitch_reference)).with_attitude r.state
    if r.threw then
      { world := w1, error := some Err.law_failure }
    else
      { world := w1, error := none }
  else
    { world := w, error := some Err.invalid_mode }

/-! ## Construction and reachable states -/

/-- The members as the initialiser list of `Control::Control` leaves them. -/
def Control_init (env : Env A T) : Control A T :=
  { pilot_mix := List.replicate 6 1
    controller_mode := Num_Controller_Modes
    reference_position := List.replicate 3 0
    roll_pitch_pid_controller := env.att_init
    x_y_pid_controller := env.trans_init
    config_file_xml := [] }

/-- The constructor `Control::Control`, on the file system found at start-up: the initialiser
list, `loadFile`, then `reference_position.clear()`, which for a `blas::vector` keeps the size
and sets every entry to zero. -/
def Control_ctor (env : Env A T) (fs : FileSystem) : Res A T :=
  match loadFile env { ctl := Control_init env, fs := fs, events := [] } with
  | { world := w, error := none } =>
    { world := { w with ctl := { w.ctl with
        reference_position := w.ctl.reference_position.map (fun _ => 0) } },
      error := none }
  | r => r

/-- The calls a client can make on the object, and a change of the files by someone else. -/
inductive Op where
  | set_roll_mix (v : ℚ)
  | set_pitch_mix (v : ℚ)
  | setParameter (p : Parameter)
  | loadFile
  | set_controller_mode (mode : Nat)
  | tick
  | reset
  | files_changed (fs : FileSystem)

/-- The world after one call; it is kept also when the call ends in an exception. -/
def step (env : Env A T) (w : World A T) : Op → World A T
  | .set_roll_mix v => set_roll_mix w v
  | .set_pitch_mix v => set_pitch_mix w v
  | .setParameter p => setParameter env w p
  | .loadFile => (loadFile env w).world
  | .set_controller_mode mode => set_controller_mode w mode
  | .tick => (tick env w).world
  | .reset => reset env w
  | .files_changed fs => { w with fs := fs }

/-- The worlds reachable from construction: the constructor returned, then any calls. -/
inductive Reachable (env : Env A T) : World A T → Prop where
  | ctor (fs : FileSystem) (h : (Control_ctor env fs).error = none) :
      Reachable env (Control_ctor env fs).world
  | step (w : World A T) (op : Op) (h : Reachable env w) : Reachable env (step env w op)

/-- Every pilot-mix weight lies in [0,1]. -/
def mix_in_range (c : Control A T) : Prop :=
  ∀ x ∈ c.pilot_mix, 0 ≤ x ∧ x ≤ 1

/-- A property of pilot-mix vectors that survives the two writes the setters make: an in-range
value stored at `ROLL` or at `PITCH`. -/
def MixClosed (P : List ℚ → Prop) : Prop :=
  ∀ l v, 0 ≤ v → v ≤ 1 → P l → P (l.set ROLL v) ∧ P (l.set PITCH v)

/-- The ids that the chain of `Control::setParameter` compares the trimmed id with, in order. -/
def recognized_ids (env : Env A T) : List String :=
  [env.att.PARAM_ROLL_KP, env.att.PARAM_ROLL_KD, env.att.PARAM_ROLL_KI,
   env.att.PARAM_PITCH_KP, env.att.PARAM_PITCH_KD, env.att.PARAM_PITCH_KI,
   PARAM_MIX_ROLL, PARAM_MIX_PITCH,
   env.att.PARAM_ROLL_TRIM, env.att.PARAM_PITCH_TRIM,
   env.trans.PARAM_X_KP, env.trans.PARAM_X_KD, env.trans.PARAM_X_KI,
   env.trans.PARAM_Y_KP, env.trans.PARAM_Y_KD, env.trans.PARAM_Y_KI,
   env.trans.PARAM_TRAVEL]

/-- The world after a sequence of calls. -/
def run (env : Env A T) (w : World A T) (ops : List Op) : World A T :=
  ops.foldl (step env) w

/-- The vector has six entries and the four beside `ROLL` and `PITCH` are 1. -/
def other_weights_one (l : List ℚ) : Prop :=
  l.length = 6 ∧ ∀ i, i < 6 → i ≠ ROLL → i ≠ PITCH → l[i]? = some 1

/-- A valid operating mode: attitude stabilization or position hold. -/
def valid_mode (m : Nat) : Prop :=
  m = Mode_Attitude_Stabilization_PID ∨ m = Mode_Position_Hold_PID

/-- The ids of the attitude law that `Control::setParameter` tests before the two mix ids. -/
def attitude_gain_ids (env : Env A T) : List String :=
  [env.att.PARAM_ROLL_KP, env.att.PARAM_ROLL_KD, env.att.PARAM_ROLL_KI,
   env.att.PARAM_PITCH_KP, env.att.PARAM_PITCH_KD, env.att.PARAM_PITCH_KI]

/-- The nodes the two control laws serialise to are not read back as `mix` or `mode` nodes:
their tags differ from both, whatever the letter case. -/
def law_tags_apart (env : Env A T) (c : Control A T) : Prop :=
  to_upper (env.att.get_xml_node c.roll_pitch_pid_controller).name ≠ "MIX"
  ∧ to_upper (env.att.get_xml_node c.roll_pitch_pid_controller).name ≠ "MODE"
  ∧ to_upper (env.trans.get_xml_node c.x_y_pid_controller).name ≠ "MIX"
  ∧ to_upper (env.trans.get_xml_node c.x_y_pid_controller).name ≠ "MODE"

/-- The lexical casts read back what they printed for the ROLL weight, the PITCH weight and the
mode of `c`. -/
def casts_round_trip (env : Env A T) (c : Control A T) : Prop :=
  env.lexical_cast_double (trim (env.double_to_string (c.pilot_mix.getD ROLL 0)))
      = some (c.pilot_mix.getD ROLL 0)
  ∧ env.lexical_cast_double (trim (env.double_to_string (c.pilot_mix.getD PITCH 0)))
      = some (c.pilot_mix.getD PITCH 0)
  ∧ env.lexical_cast_unsigned (trim (env.mode_to_string c.controller_mode))
      = some c.controller_mode

/-- The member function `loadFile` run on another object, with the given trace, on the file system
that `saveFile` leaves when run in the world `w`. -/
def load_saved (env : Env A T) (w : World A T) (other : Control A T) (events : List Event) :
    Res A T :=
  loadFile env { ctl := other, fs := (saveFile env w).fs, events := events }

/-! ## A concrete environment

A small instance of the collaborators, used to run the definitions on concrete inputs: each law
keeps its list of gains, the attitude law fails on an empty reference, the translation law is
runnable when its reference has three entries. -/

/-- Decimal digits of a text, `none` when a character is not a digit or the text is empty. -/
def digits_value : List Char → Option Nat
  | [] => none
  | cs => cs.foldl (fun acc c =>
      match acc with
      | none => none
      | some n => if c.isDigit then some (10 * n + (c.toNat - 48)) else none) (some 0)

/-- A toy attitude law over its eight gains; its effort vector is made of the first six. -/
def toy_attitude : attitude_pid (List ℚ) :=
  { PARAM_ROLL_KP := "PID_ROLL_KP"
    PARAM_ROLL_KD := "PID_ROLL_KD"
    PARAM_ROLL_KI := "PID_ROLL_KI"
    PARAM_PITCH_KP := "PID_PITCH_KP"
    PARAM_PITCH_KD := "PID_PITCH_KD"
    PARAM_PITCH_KI := "PID_PITCH_KI"
    PARAM_ROLL_TRIM := "TRIM_ROLL"
    PARAM_PITCH_TRIM := "TRIM_PITCH"
    set_roll_proportional := fun a v => a.set 0 v
    set_roll_derivative := fun a v => a.set 1 v
    set_roll_integral := fun a v => a.set 2 v
    set_pitch_proportional := fun a v => a.set 3 v
    set_pitch_derivative := fun a v => a.set 4 v
    set_pitch_integral := fun a v => a.set 5 v
    set_roll_trim_degrees := fun a v => a.set 6 v
    set_pitch_trim_degrees := fun a v => a.set 7 v
    get_roll_trim_radians := fun a => a.getD 6 0
    get_pitch_trim_radians := fun a => a.getD 7 0
    get_control_effort := fun a => a.take 6
    call := fun a r => { state := a, threw := r.isEmpty }
    runnable := fun _ => true
    reset := fun a => a
    getParameters := fun a => [Parameter.mk "PID_ROLL_KP" (a.getD 0 0) 0]
    parse_pid := fun a _ => a
    get_xml_node := fun _ => xml_node.mk "attitude_pid" "" [] [] }

/-- A toy translation law over its seven gains. -/
def toy_translation : translation_outer_pid (List ℚ) :=
  { PARAM_X_KP := "PID_X_KP"
    PARAM_X_KD := "PID_X_KD"
    PARAM_X_KI := "PID_X_KI"
    PARAM_Y_KP := "PID_Y_KP"
    PARAM_Y_KD := "PID_Y_KD"
    PARAM_Y_KI := "PID_Y_KI"
    PARAM_TRAVEL := "PID_TRAVEL"
    set_x_proportional := fun t v => t.set 0 v
    set_x_derivative := fun t v => t.set 1 v
    set_x_integral := fun t v => t.set 2 v
    set_y_proportional := fun t v => t.set 3 v
    set_y_derivative := fun t v => t.set 4 v
    set_y_integral := fun t v => t.set 5 v
    set_scaled_travel_degrees := fun t v => t.set 6 v
    get_control_effort := fun t => [t.getD 0 0, t.getD 3 0]
    call := fun t r => { state := t, threw := decide (r.length ≠ 3) }
    runnable := fun t => decide (t.length = 7)
    reset := fun t => t
    getParameters := fun t => [Parameter.mk "PID_X_KP" (t.getD 0 0) 0]
    parse_xml_node := fun t _ => t
    get_xml_node := fun _ => xml_node.mk "translation_outer_pid" "" [] [] }

/-- A toy environment: integers are the only numbers the casts read or print. -/
def toy_env : Env (List ℚ) (List ℚ) :=
  { att := toy_attitude
    trans := toy_translation
    att_init := List.replicate 8 0
    trans_init := List.replicate 7 0
    lexical_cast_double := fun s => (digits_value s.data).map (fun n => (n : ℚ))
    lexical_cast_unsigned := fun s => digits_value s.data
    double_to_string := fun q => toString q.num
    mode_to_string := fun m => toString m
    calibration_filename := "calibration.xml"
    controller_param_filename := "controller_parameters.xml"
    LOG_TRANS_ATTITUDE_REF := "Translation PID attitude reference"
    CONTROLLER_ID := 0 }

/-- A file system without any file. -/
def no_files : FileSystem := fun _ => none

/-- The world after construction on the empty file system. -/
def toy_world : World (List ℚ) (List ℚ) :=
  { ctl := Control_init toy_env, fs := no_files, events := [] }

/-- A world whose weights, gains and mode are not the initial ones. -/
def busy_world : World (List ℚ) (List ℚ) :=
  { ctl :=
      { pilot_mix := [1 / 2, 0, 1, 1, 1, 1]
        controller_mode := Mode_Position_Hold_PID
        reference_position := [1, 2, 3]
        roll_pitch_pid_controller := [2, 4, 6, 8, 10, 12, 0, 0]
        x_y_pid_controller := List.replicate 7 0
        config_file_xml := [] }
    fs := no_files
    events := [] }

/-- Position hold with a translation law that is not runnable. -/
def stalled_world : World (List ℚ) (List ℚ) :=
  { busy_world with ctl := { busy_world.ctl with x_y_pid_controller := [] } }

/-- Position hold with a runnable translation law that fails on the (empty) reference. -/
def lost_world : World (List ℚ) (List ℚ) :=
  { busy_world with ctl := { busy_world.ctl with reference_position := [] } }

/-- An attitude law whose effort vector has two entries, with a zero weight on channel 2. -/
def short_world : World (List ℚ) (List ℚ) :=
  { busy_world with ctl := { busy_world.ctl with
      pilot_mix := [1 / 2, 0, 0, 1, 1, 1]
      roll_pitch_pid_controller := [2, 4] } }

/-- A file system holding the calibration file and no controller-parameter file. -/
def calibration_only : FileSystem :=
  fun path => if path = "calibration.xml" then some FileContent.malformed else none

/-- A file system whose controller-parameter file has the root tag `foo`. -/
def foo_files : FileSystem :=
  fun path =>
    if path = "calibration.xml" then some FileContent.malformed
    else if path = "controller_parameters.xml" then
      some (FileContent.xml
        [xml_node.mk "foo" "" []
          [xml_node.mk "mix" "0" [("channel", "roll")] [], xml_node.mk "mode" "0" [] []]])
    else none

/-- The toy environment with law parsers that leave a mark in the first gain. -/
def parsing_env : Env (List ℚ) (List ℚ) :=
  { toy_env with
    att := { toy_attitude with parse_pid := fun a node => a.set 0 (node.children.length + 1) }
    trans := { toy_translation with
      parse_xml_node := fun t node => t.set 0 (node.children.length + 1) } }

/-- A file system whose controller-parameter file is well rooted and holds two empty nodes with
the given tags. -/
def law_files (attitude_tag translation_tag : String) : FileSystem :=
  fun path =>
    if path = "calibration.xml" then some FileContent.malformed
    else if path = "controller_parameters.xml" then
      some (FileContent.xml
        [xml_node.mk "controller_params" "" []
          [xml_node.mk attitude_tag "" [] [], xml_node.mk translation_tag "" [] []]])
    else none

/-- A world that differs from `busy_world` in mode, reference position and translation law. -/
def idle_world : World (List ℚ) (List ℚ) :=
  { busy_world with ctl := { busy_world.ctl with
      controller_mode := Mode_Attitude_Stabilization_PID
      reference_position := []
      x_y_pid_controller := [5, 5, 5, 5, 5, 5, 5] } }

/-- Position hold with the weights 0, 1, 1, 1, 1, 1, next to an existing calibration file. -/
def saved_world : World (List ℚ) (List ℚ) :=
  { busy_world with
    ctl := { busy_world.ctl with pilot_mix := [0, 1, 1, 1, 1, 1] }
    fs := calibration_only }

/-- A file system whose well-rooted controller-parameter file sets the mode 4294967295. -/
def top_bit_files : FileSystem :=
  fun path =>
    if path = "calibration.xml" then some FileContent.malformed
    else if path = "controller_parameters.xml" then
      some (FileContent.xml
        [xml_node.mk "controller_params" "" [] [xml_node.mk "mode" "4294967295" [] []]])
    else none

/-! ## Auxiliary facts -/

theorem promoted_of_lt (m : Nat) (h : m < 2 ^ 31) : promoted m = (m : Int) := by
  have h2 : m % 2 ^ 32 = m := Nat.mod_eq_of_lt (by omega)
  unfold promoted
  rw [h2, if_pos h]

theorem guard_of_lt (m : Nat) (h : m < Num_Controller_Modes) :
    promoted m < promoted Num_Controller_Modes := by
  unfold Num_Controller_Modes at h ⊢
  rw [promoted_of_lt m (by omega), promoted_of_lt 2 (by norm_num)]
  exact_mod_cast h

theorem guard_iff (m : Nat) :
    promoted m < promoted Num_Controller_Modes ↔ (m % 2 ^ 32 < 2 ∨ 2 ^ 31 ≤ m % 2 ^ 32) := by
  have h2 : promoted Num_Controller_Modes = 2 := by
    unfold Num_Controller_Modes
    rw [promoted_of_lt 2 (by norm_num)]
    rfl
  have hb : m % 2 ^ 32 < 2 ^ 32 := Nat.mod_lt _ (by norm_num)
  rw [h2]
  unfold promoted
  split
  · omega
  · omega

theorem set_controller_mode_stored (w : World A T) (m : Nat)
    (h : promoted m < promoted Num_Controller_Modes) :
    (set_controller_mode w m).ctl.controller_mode = m := by
  unfold set_controller_mode
  rw [if_pos h]
  simp only []
  split <;> rfl

theorem set_controller_mode_signal (w : World A T) (m : Nat)
    (h : promoted m < promoted Num_Controller_Modes) (hne : w.ctl.controller_mode ≠ m) :
    (set_controller_mode w m).events
      = w.events ++ [Event.mode_changed m,
          Event.log Severity.warning "Controller mode changed to: "] := by
  simp [set_controller_mode, h, hne, World.emit]

theorem set_controller_mode_rejected (w : World A T) (m : Nat)
    (h : ¬ promoted m < promoted Num_Controller_Modes) : set_controller_mode w m = w := by
  unfold set_controller_mode
  rw [if_neg h]

theorem loadFile_top_bit :
    loadFile toy_env { busy_world with fs := top_bit_files }
      = { world := set_controller_mode
            { busy_world with
              ctl := { busy_world.ctl with config_file_xml :=
                [xml_node.mk "controller_params" "" []
                  [xml_node.mk "mode" "4294967295" [] []]] }
              fs := top_bit_files } 4294967295,
          error := none } := by
  have h1 : to_upper "controller_params" = "CONTROLLER_PARAMS" := by decide
  have h2 : to_upper "mode" ≠ "MIX" := by decide
  have h3 : to_upper "mode" = "MODE" := by decide
  have h4 : toy_env.lexical_cast_unsigned (trim "4294967295") = some 4294967295 := by decide
  simp only [loadFile, top_bit_files, toy_env] at h4 ⊢
  simp [loadFile_children, loadFile_node, parse_mode, xml_node.name, xml_node.children,
    xml_node.value, h1, h2, h3, h4]

theorem length_six {α : Type} (l : List α) (h : l.length = 6) :
    ∃ a b c d e f, l = [a, b, c, d, e, f] := by
  match l, h with
  | [a, b, c, d, e, f], _ => exact ⟨a, b, c, d, e, f, rfl⟩

theorem resize_of_length (v : List ℚ) (n : Nat) (h : v.length = n) : resize v n = v := by
  unfold resize
  rw [List.take_append_of_le_length (by omega)]
  exact List.take_of_length_le (by omega)

theorem resize_length (v : List ℚ) (n : Nat) : (resize v n).length = n := by
  simp [resize]

theorem mix_loop_six (pilot_mix pilot_inputs control_effort : List ℚ)
    (hp : pilot_inputs.length = 6) (he : control_effort.length = 6)
    (hm : pilot_mix.length = 6) (hr : ∀ x ∈ pilot_mix, 0 ≤ x ∧ x ≤ 1) :
    mix_loop pilot_mix pilot_inputs control_effort 6 0 (List.replicate 6 0) =
      .ok ((List.range 6).map fun i =>
        pilot_mix.getD i 0 * pilot_inputs.getD i 0
          + (1 - pilot_mix.getD i 0) * control_effort.getD i 0) := by
  obtain ⟨p0, p1, p2, p3, p4, p5, rfl⟩ := length_six _ hp
  obtain ⟨e0, e1, e2, e3, e4, e5, rfl⟩ := length_six _ he
  obtain ⟨m0, m1, m2, m3, m4, m5, rfl⟩ := length_six _ hm
  simp only [List.mem_cons, List.mem_singleton, forall_eq_or_imp, forall_eq, List.not_mem_nil] at hr
  obtain ⟨⟨_, _⟩, ⟨_, _⟩, ⟨_, _⟩, ⟨_, _⟩, ⟨_, _⟩, ⟨_, _⟩, _⟩ := hr
  simp [mix_loop, List.range, List.range.loop, *]

theorem mix_loop_error (pilot_mix pilot_inputs control_effort : List ℚ) (k i : Nat)
    (out : List ℚ) (e : Err)
    (h : mix_loop pilot_mix pilot_inputs control_effort k i out = .error e) :
    e = Err.mix_range := by
  induction k generalizing i out with
  | zero => simp [mix_loop] at h
  | succ k ih =>
    unfold mix_loop at h
    split at h
    · injection h with h
      exact h.symm
    · exact ih _ _ h

/-! ### What each member function does to the pilot mix -/

@[simp] theorem emit_ctl (w : World A T) (e : Event) : (w.emit e).ctl = w.ctl := rfl

@[simp] theorem emit_fs (w : World A T) (e : Event) : (w.emit e).fs = w.fs := rfl

@[simp] theorem emit_events (w : World A T) (e : Event) : (w.emit e).events = w.events ++ [e] := rfl

theorem set_roll_mix_keeps (P : List ℚ → Prop) (hP : MixClosed P) (w : World A T) (v : ℚ)
    (h : P w.ctl.pilot_mix) : P (set_roll_mix w v).ctl.pilot_mix := by
  unfold set_roll_mix
  split
  · next hv => exact (hP _ v hv.2 hv.1 h).1
  · exact h

theorem set_pitch_mix_keeps (P : List ℚ → Prop) (hP : MixClosed P) (w : World A T) (v : ℚ)
    (h : P w.ctl.pilot_mix) : P (set_pitch_mix w v).ctl.pilot_mix := by
  unfold set_pitch_mix
  split
  · next hv => exact (hP _ v hv.2 hv.1 h).2
  · exact h

theorem set_controller_mode_pilot_mix (w : World A T) (m : Nat) :
    (set_controller_mode w m).ctl.pilot_mix = w.ctl.pilot_mix := by
  unfold set_controller_mode
  split
  · simp only []
    split <;> rfl
  · rfl

theorem saveFile_ctl (env : Env A T) (w : World A T) : (saveFile env w).ctl = w.ctl := rfl

theorem ite_some_cases {α : Type} {c : Prop} [Decidable c] {x y : α} {r : Option α}
    (Q : α → Prop) (h : (if c then some x else r) = some y) (hx : Q x)
    (hr : r = some y → Q y) : Q y := by
  by_cases hc : c
  · rw [if_pos hc] at h
    injection h with h
    exact h ▸ hx
  · rw [if_neg hc] at h
    exact hr h

theorem setParameter_dispatch_cases (env : Env A T) (w w1 : World A T) (id : String) (v : ℚ)
    (hd : setParameter_dispatch env w id v = some w1) :
    w1 = set_roll_mix w v ∨ w1 = set_pitch_mix w v ∨ (∃ a, w1 = w.with_attitude a)
      ∨ (∃ t, w1 = w.with_translation t) := by
  unfold setParameter_dispatch at hd
  iterate 17
    refine ite_some_cases (fun u => u = set_roll_mix w v ∨ u = set_pitch_mix w v
        ∨ (∃ a, u = w.with_attitude a) ∨ (∃ t, u = w.with_translation t)) hd
      (by first
        | exact Or.inl rfl
        | exact Or.inr (Or.inl rfl)
        | exact Or.inr (Or.inr (Or.inl ⟨_, rfl⟩))
        | exact Or.inr (Or.inr (Or.inr ⟨_, rfl⟩))) (fun hd => ?_)
  exact absurd hd (by simp)

theorem setParameter_dispatch_keeps (P : List ℚ → Prop) (hP : MixClosed P) (env : Env A T)
    (w w1 : World A T) (id : String) (v : ℚ) (h : P w.ctl.pilot_mix)
    (hd : setParameter_dispatch env w id v = some w1) : P w1.ctl.pilot_mix := by
  rcases setParameter_dispatch_cases env w w1 id v hd with rfl | rfl | ⟨a, rfl⟩ | ⟨t, rfl⟩
  · exact set_roll_mix_keeps P hP w v h
  · exact set_pitch_mix_keeps P hP w v h
  · exact h
  · exact h

theorem setParameter_keeps (P : List ℚ → Prop) (hP : MixClosed P) (env : Env A T)
    (w : World A T) (p : Parameter) (h : P w.ctl.pilot_mix) :
    P (setParameter env w p).ctl.pilot_mix := by
  unfold setParameter
  split
  · exact h
  · next w1 hd =>
    rw [saveFile_ctl]
    exact setParameter_dispatch_keeps P hP env w w1 _ _ h hd

theorem parse_pilot_mix_keeps (P : List ℚ → Prop) (hP : MixClosed P) (env : Env A T)
    (w : World A T) (node : xml_node) (h : P w.ctl.pilot_mix) :
    P (parse_pilot_mix env w node).world.ctl.pilot_mix := by
  unfold parse_pilot_mix
  simp only []
  split
  · exact h
  · split_ifs
    · split
      · exact h
      · exact set_roll_mix_keeps P hP w _ h
    · split
      · exact h
      · exact set_pitch_mix_keeps P hP w _ h
    · exact h

theorem parse_mode_pilot_mix (env : Env A T) (w : World A T) (node : xml_node) :
    (parse_mode env w node).world.ctl.pilot_mix = w.ctl.pilot_mix := by
  unfold parse_mode
  simp only []
  split
  · rfl
  · exact set_controller_mode_pilot_mix w _

theorem loadFile_node_keeps (P : List ℚ → Prop) (hP : MixClosed P) (env : Env A T)
    (w : World A T) (node : xml_node) (h : P w.ctl.pilot_mix) :
    P (loadFile_node env w node).world.ctl.pilot_mix := by
  unfold loadFile_node
  simp only []
  split_ifs
  · exact parse_pilot_mix_keeps P hP env w node h
  · rw [parse_mode_pilot_mix]; exact h
  · exact h
  · exact h
  · exact h

theorem loadFile_children_keeps (P : List ℚ → Prop) (hP : MixClosed P) (env : Env A T)
    (nodes : List xml_node) (w : World A T) (h : P w.ctl.pilot_mix) :
    P (loadFile_children env w nodes).world.ctl.pilot_mix := by
  induction nodes generalizing w with
  | nil => exact h
  | cons node rest ih =>
    have hn := loadFile_node_keeps P hP env w node h
    unfold loadFile_children
    split
    · next w1 heq =>
      rw [heq] at hn
      exact ih w1 hn
    · exact hn

theorem loadFile_keeps (P : List ℚ → Prop) (hP : MixClosed P) (env : Env A T)
    (w : World A T) (h : P w.ctl.pilot_mix) :
    P (loadFile env w).world.ctl.pilot_mix := by
  unfold loadFile
  split_ifs
  · exact h
  · split
    · exact h
    · exact h
    · simp only []
      split
      · exact h
      · split_ifs
        · exact h
        · exact loadFile_children_keeps P hP env _ _ h

theorem tick_fallback_pilot_mix (w : World A T) (text : String) :
    (tick_fallback w text).ctl.pilot_mix = w.ctl.pilot_mix := by
  unfold tick_fallback
  rw [set_controller_mode_pilot_mix]
  rfl

theorem tick_pilot_mix (env : Env A T) (w : World A T) :
    (tick env w).world.ctl.pilot_mix = w.ctl.pilot_mix := by
  unfold tick
  simp only []
  split_ifs <;> first | rfl | exact (tick_fallback_pilot_mix _ _).trans rfl

theorem step_keeps (P : List ℚ → Prop) (hP : MixClosed P) (env : Env A T)
    (w : World A T) (op : Op) (h : P w.ctl.pilot_mix) : P (step env w op).ctl.pilot_mix := by
  cases op with
  | set_roll_mix v => exact set_roll_mix_keeps P hP w v h
  | set_pitch_mix v => exact set_pitch_mix_keeps P hP w v h
  | setParameter p => exact setParameter_keeps P hP env w p h
  | loadFile => exact loadFile_keeps P hP env w h
  | set_controller_mode mode =>
    show P (set_controller_mode w mode).ctl.pilot_mix
    rw [set_controller_mode_pilot_mix]; exact h
  | tick =>
    show P (tick env w).world.ctl.pilot_mix
    rw [tick_pilot_mix]; exact h
  | reset => exact h
  | files_changed fs => exact h

theorem Control_ctor_keeps (P : List ℚ → Prop) (hP : MixClosed P) (env : Env A T)
    (fs : FileSystem) (h : P (List.replicate 6 1)) :
    P (Control_ctor env fs).world.ctl.pilot_mix := by
  have hl := loadFile_keeps P hP env { ctl := Control_init env, fs := fs, events := [] } h
  unfold Control_ctor
  split
  · next w heq =>
    rw [heq] at hl
    exact hl
  · exact hl

theorem Reachable.mix_induction (P : List ℚ → Prop) (hP : MixClosed P)
    (h1 : P (List.replicate 6 1)) (env : Env A T) (w : World A T) (hw : Reachable env w) :
    P w.ctl.pilot_mix := by
  induction hw with
  | ctor fs _ => exact Control_ctor_keeps P hP env fs h1
  | step w op _ ih => exact step_keeps P hP env w op ih

/-! ## Mixing (C1) -/

/-- C1: with a pilot-input vector, an attitude-law effort vector and a pilot-mix vector of length 6,
and every weight in [0,1], `get_control_effort` returns without error the vector whose entry `i`
is `mix[i]*pilot[i] + (1-mix[i])*effort[i]`, for `i` from 0 to 5. -/
theorem get_control_effort_mixes (env : Env A T) (w : World A T) (pilot_inputs : List ℚ)
    (hp : pilot_inputs.length = 6)
    (he : (env.att.get_control_effort w.ctl.roll_pitch_pid_controller).length = 6)
    (hm : w.ctl.pilot_mix.length = 6)
    (hr : ∀ x ∈ w.ctl.pilot_mix, 0 ≤ x ∧ x ≤ 1) :
    (get_control_effort env w pilot_inputs).1 =
      .ok ((List.range 6).map fun i =>
        w.ctl.pilot_mix.getD i 0 * pilot_inputs.getD i 0
          + (1 - w.ctl.pilot_mix.getD i 0)
            * (env.att.get_control_effort w.ctl.roll_pitch_pid_controller).getD i 0) := by
  unfold get_control_effort
  rw [resize_of_length _ 6 he]
  simp only [hp, he, hm, beq_self_eq_true, Bool.and_self, Bool.not_true, Bool.false_eq_true,
    if_false, mix_loop_six _ _ _ hp he hm hr]

/-- The mixing theorem at a world with weights 1/2, 0, 1, 1, 1, 1 and effort 2, 4, .., 12: the
output is 3/2, 4, 3, 4, 5, 6. -/
theorem get_control_effort_mixes_witness :
    (get_control_effort toy_env busy_world [1, 2, 3, 4, 5, 6]).1 = .ok [3 / 2, 4, 3, 4, 5, 6] := by
  have h := get_control_effort_mixes toy_env busy_world [1, 2, 3, 4, 5, 6] (by rfl) (by rfl)
    (by rfl) (by simp [busy_world]; norm_num)
  rw [h]
  simp [busy_world, toy_env, toy_attitude, List.range, List.range.loop]
  norm_num

/-! ## The mix invariant (C2) -/

theorem mix_in_range_closed : MixClosed (fun l => ∀ x ∈ l, 0 ≤ x ∧ x ≤ 1) := by
  intro l v h0 h1 hl
  constructor <;>
  · intro x hx
    rcases List.mem_or_eq_of_mem_set hx with hx | hx
    · exact hl x hx
    · exact hx ▸ ⟨h0, h1⟩

theorem getD_in_range (l : List ℚ) (h : ∀ x ∈ l, 0 ≤ x ∧ x ≤ 1) (i : Nat) :
    0 ≤ l.getD i 0 ∧ l.getD i 0 ≤ 1 := by
  by_cases hi : i < l.length
  · rw [List.getD_eq_getElem l 0 hi]
    exact h _ (List.getElem_mem hi)
  · rw [List.getD_eq_default l 0 (by omega)]
    exact ⟨le_refl 0, zero_le_one⟩

theorem mix_loop_ok (pilot_mix pilot_inputs control_effort : List ℚ)
    (h : ∀ x ∈ pilot_mix, 0 ≤ x ∧ x ≤ 1) (k i : Nat) (out : List ℚ) :
    ∃ r, mix_loop pilot_mix pilot_inputs control_effort k i out = .ok r := by
  induction k generalizing i out with
  | zero => exact ⟨out, rfl⟩
  | succ k ih =>
    have hi := getD_in_range pilot_mix h i
    unfold mix_loop
    simp only [ge_iff_le, hi.1, hi.2, decide_True, Bool.and_self, Bool.not_true, Bool.false_eq_true,
      if_false]
    exact ih _ _

/-- C2: in every world reachable from construction by the setters, `setParameter`, `loadFile`
(whatever the files hold), `set_controller_mode`, `tick` and `reset`, every pilot-mix weight lies
in [0,1], and `get_control_effort` cannot end in the mix-range error. -/
theorem reachable_mix_in_range (env : Env A T) (w : World A T) (hw : Reachable env w) :
    mix_in_range w.ctl ∧
      ∀ pilot_inputs, (get_control_effort env w pilot_inputs).1 ≠ .error Err.mix_range := by
  have hr : mix_in_range w.ctl :=
    Reachable.mix_induction (fun l => ∀ x ∈ l, 0 ≤ x ∧ x ≤ 1) mix_in_range_closed
      (by intro x hx; rw [List.eq_of_mem_replicate hx]; exact ⟨zero_le_one, le_refl 1⟩) env w hw
  refine ⟨hr, fun pilot_inputs => ?_⟩
  unfold get_control_effort
  simp only []
  split_ifs
  · simp
  · obtain ⟨r, hr2⟩ := mix_loop_ok w.ctl.pilot_mix pilot_inputs
      (resize (env.att.get_control_effort w.ctl.roll_pitch_pid_controller) 6) hr 6 0
      (List.replicate 6 0)
    rw [hr2]
    simp

/-- The invariant at the world reached by construction without files and `set_roll_mix(1/2)`. -/
theorem reachable_mix_in_range_witness :
    mix_in_range (step toy_env (Control_ctor toy_env no_files).world (Op.set_roll_mix (1 / 2))).ctl
    ∧ (step toy_env (Control_ctor toy_env no_files).world (Op.set_roll_mix (1 / 2))).ctl.pilot_mix
        = [1 / 2, 1, 1, 1, 1, 1] :=
  ⟨(reachable_mix_in_range toy_env _ (Reachable.step _ _ (Reachable.ctor no_files rfl))).1, by
    simp [step, set_roll_mix, Control_ctor, loadFile, no_files, toy_env, Control_init, ROLL]
    norm_num⟩

/-! ## Fallback of the tick (C3) -/

/-- C3: in position hold, when the translation law is not runnable, or is runnable and raises
`bad_control` when called, `tick` returns normally, a warning is logged and the mode afterwards is
attitude stabilization. -/
theorem tick_position_hold_fallback (env : Env A T) (w : World A T)
    (hm : w.ctl.controller_mode = Mode_Position_Hold_PID)
    (hf : env.trans.runnable w.ctl.x_y_pid_controller = false ∨
      (env.trans.runnable w.ctl.x_y_pid_controller = true ∧
        (env.trans.call w.ctl.x_y_pid_controller w.ctl.reference_position).threw = true)) :
    (tick env w).error = none
    ∧ (tick env w).world.ctl.controller_mode = Mode_Attitude_Stabilization_PID
    ∧ (tick env w).world.events =
        w.events
          ++ (if env.trans.runnable w.ctl.x_y_pid_controller then
                [Event.translation_invoked w.ctl.reference_position,
                 Event.log Severity.warning
                  "Caught exception from Translational PID, switching to attitude stabilization mode"]
              else
                [Event.log Severity.warning
                  "Control: translation controller reports it is not runnable.  Switching to attitude control."])
          ++ [Event.mode_changed Mode_Attitude_Stabilization_PID,
              Event.log Severity.warning "Controller mode changed to: "] := by
  have hg := guard_of_lt Mode_Attitude_Stabilization_PID (by decide)
  have hne : Mode_Position_Hold_PID ≠ Mode_Attitude_Stabilization_PID := by decide
  rcases hf with hf | ⟨hf, ht⟩
  · refine ⟨?_, ?_, ?_⟩ <;>
      simp [tick, hm, hf, tick_fallback, set_controller_mode, World.emit, hg, hne]
  · refine ⟨?_, ?_, ?_⟩ <;>
      simp [tick, hm, hf, ht, tick_fallback, set_controller_mode, World.emit,
        World.with_translation, hg, hne]

/-- The fallback at a world whose translation law is not runnable and at one where it throws. -/
theorem tick_position_hold_fallback_witness :
    ((tick toy_env stalled_world).error = none
      ∧ (tick toy_env stalled_world).world.ctl.controller_mode = Mode_Attitude_Stabilization_PID)
    ∧ ((tick toy_env lost_world).error = none
      ∧ (tick toy_env lost_world).world.ctl.controller_mode = Mode_Attitude_Stabilization_PID) :=
  ⟨⟨(tick_position_hold_fallback toy_env stalled_world rfl (Or.inl (by decide))).1,
    (tick_position_hold_fallback toy_env stalled_world rfl (Or.inl (by decide))).2.1⟩,
   ⟨(tick_position_hold_fallback toy_env lost_world rfl (Or.inr ⟨by decide, by decide⟩)).1,
    (tick_position_hold_fallback toy_env lost_world rfl (Or.inr ⟨by decide, by decide⟩)).2.1⟩⟩

/-! ## The mix setters (C4) -/

/-- C4: `set_roll_mix(v)` stores `v` as the ROLL weight when 0 <= v <= 1 and otherwise leaves the
object and the files as they were; `set_pitch_mix(v)` does the same for the PITCH weight; in both
cases every other weight and the mode are unchanged. The pilot-mix vector is assumed to hold
the ROLL and PITCH entries, as the six-entry vector of the constructor does. -/
theorem set_mix_accepts_unit_interval (w : World A T) (v : ℚ)
    (hlen : PITCH < w.ctl.pilot_mix.length) :
    ((0 ≤ v ∧ v ≤ 1 → (set_roll_mix w v).ctl.pilot_mix[ROLL]? = some v)
      ∧ (¬ (0 ≤ v ∧ v ≤ 1) → (set_roll_mix w v).ctl = w.ctl ∧ (set_roll_mix w v).fs = w.fs)
      ∧ (∀ i, i ≠ ROLL → (set_roll_mix w v).ctl.pilot_mix[i]? = w.ctl.pilot_mix[i]?)
      ∧ (set_roll_mix w v).ctl.controller_mode = w.ctl.controller_mode)
    ∧ ((0 ≤ v ∧ v ≤ 1 → (set_pitch_mix w v).ctl.pilot_mix[PITCH]? = some v)
      ∧ (¬ (0 ≤ v ∧ v ≤ 1) → (set_pitch_mix w v).ctl = w.ctl ∧ (set_pitch_mix w v).fs = w.fs)
      ∧ (∀ i, i ≠ PITCH → (set_pitch_mix w v).ctl.pilot_mix[i]? = w.ctl.pilot_mix[i]?)
      ∧ (set_pitch_mix w v).ctl.controller_mode = w.ctl.controller_mode) := by
  have hR : ROLL < w.ctl.pilot_mix.length := Nat.lt_trans (by decide) hlen
  have hP : PITCH < w.ctl.pilot_mix.length := hlen
  refine ⟨⟨?_, ?_, ?_, ?_⟩, ⟨?_, ?_, ?_, ?_⟩⟩
  · intro hv
    simp [set_roll_mix, hv.1, hv.2, hR]
  · intro hv
    have hv2 : ¬ (v ≤ 1 ∧ v ≥ 0) := fun h => hv ⟨h.2, h.1⟩
    simp [set_roll_mix, hv2]
  · intro i hi
    unfold set_roll_mix
    split
    · simp [List.getElem?_set_ne (Ne.symm hi)]
    · rfl
  · unfold set_roll_mix
    split <;> rfl
  · intro hv
    simp [set_pitch_mix, hv.1, hv.2, hP]
  · intro hv
    have hv2 : ¬ (v ≤ 1 ∧ v ≥ 0) := fun h => hv ⟨h.2, h.1⟩
    simp [set_pitch_mix, hv2]
  · intro i hi
    unfold set_pitch_mix
    split
    · simp [List.getElem?_set_ne (Ne.symm hi)]
    · rfl
  · unfold set_pitch_mix
    split <;> rfl

/-- The setters at the boundary values 0 and 1 and at the rejected values 3/2 and -1. -/
theorem set_mix_accepts_unit_interval_witness :
    (set_roll_mix busy_world 1).ctl.pilot_mix[ROLL]? = some 1
    ∧ (set_roll_mix busy_world 0).ctl.pilot_mix[ROLL]? = some 0
    ∧ (set_pitch_mix busy_world 1).ctl.pilot_mix[PITCH]? = some 1
    ∧ (set_roll_mix busy_world (3 / 2)).ctl = busy_world.ctl
    ∧ (set_pitch_mix busy_world (-1)).ctl = busy_world.ctl :=
  ⟨(set_mix_accepts_unit_interval busy_world 1 (by decide)).1.1 (by norm_num),
   (set_mix_accepts_unit_interval busy_world 0 (by decide)).1.1 (by norm_num),
   (set_mix_accepts_unit_interval busy_world 1 (by decide)).2.1 (by norm_num),
   ((set_mix_accepts_unit_interval busy_world (3 / 2) (by decide)).1.2.1 (by norm_num)).1,
   ((set_mix_accepts_unit_interval busy_world (-1) (by decide)).2.2.1 (by norm_num)).1⟩

/-! ## Mode changes (C5, C6) -/

/-- C5: `set_controller_mode(m)` emits nothing when `m` is the current mode, and emits exactly one
mode-changed signal, carrying `m`, followed by its log line, when `m` is below the count sentinel
and differs from the current mode; in both cases the stored mode afterwards is `m`. -/
theorem set_controller_mode_notifies (w : World A T) (m : Nat) :
    (m = w.ctl.controller_mode →
      (set_controller_mode w m).events = w.events
      ∧ (set_controller_mode w m).ctl.controller_mode = m)
    ∧ (m < Num_Controller_Modes → m ≠ w.ctl.controller_mode →
      (set_controller_mode w m).events =
        w.events ++ [Event.mode_changed m,
          Event.log Severity.warning "Controller mode changed to: "]
      ∧ (set_controller_mode w m).ctl.controller_mode = m) := by
  constructor
  · intro h
    unfold set_controller_mode
    split
    · simp [h]
    · exact ⟨rfl, h.symm⟩
  · intro h1 h2
    simp [set_controller_mode, guard_of_lt m h1, Ne.symm h2, World.emit]

/-- Setting the current mode of a world in position hold, then the other operating mode. -/
theorem set_controller_mode_notifies_witness :
    ((set_controller_mode busy_world Mode_Position_Hold_PID).events = busy_world.events
      ∧ (set_controller_mode busy_world Mode_Position_Hold_PID).ctl.controller_mode
          = Mode_Position_Hold_PID)
    ∧ ((set_controller_mode busy_world Mode_Attitude_Stabilization_PID).events =
        busy_world.events ++ [Event.mode_changed Mode_Attitude_Stabilization_PID,
          Event.log Severity.warning "Controller mode changed to: "]
      ∧ (set_controller_mode busy_world Mode_Attitude_Stabilization_PID).ctl.controller_mode
          = Mode_Attitude_Stabilization_PID) :=
  ⟨(set_controller_mode_notifies busy_world Mode_Position_Hold_PID).1 rfl,
   (set_controller_mode_notifies busy_world Mode_Attitude_Stabilization_PID).2
      (by decide) (by decide)⟩

/-- C6 fails on the code: the guard of `set_controller_mode` is a signed comparison. The
sentinel and the value 7 are rejected and the value 0 is stored, but the value 4294967295, far
above the sentinel, passes the guard: it is stored and notified, also when it comes from the
`mode` node of a file. -/
theorem set_controller_mode_accepts_top_bit :
    (set_controller_mode busy_world Num_Controller_Modes = busy_world
      ∧ set_controller_mode busy_world 7 = busy_world
      ∧ (set_controller_mode busy_world 0).ctl.controller_mode = 0)
    ∧ Num_Controller_Modes ≤ 4294967295
    ∧ (set_controller_mode busy_world 4294967295).ctl.controller_mode = 4294967295
    ∧ (set_controller_mode busy_world 4294967295).events
        = [Event.mode_changed 4294967295,
           Event.log Severity.warning "Controller mode changed to: "]
    ∧ (loadFile toy_env { busy_world with fs := top_bit_files }).world.ctl.controller_mode
        = 4294967295 := by
  have g7 : ¬ promoted 7 < promoted Num_Controller_Modes := by
    rw [guard_iff]; decide
  have gt : promoted 4294967295 < promoted Num_Controller_Modes := by
    rw [guard_iff]; decide
  refine ⟨⟨?_, ?_, ?_⟩, by decide, ?_, ?_, ?_⟩
  · exact set_controller_mode_rejected _ _ (lt_irrefl _)
  · exact set_controller_mode_rejected _ _ g7
  · exact set_controller_mode_stored _ _ (guard_of_lt 0 (by decide))
  · exact set_controller_mode_stored _ _ gt
  · exact set_controller_mode_signal busy_world _ gt (by decide)
  · rw [loadFile_top_bit]
    exact set_controller_mode_stored _ _ gt

/-! ## Vector lengths (C7, C8) -/

/-- C7: with a pilot-input vector whose length is not 6, `get_control_effort` ends in the
vector-length error, returns no vector and logs nothing. -/
theorem get_control_effort_rejects_pilot_length (env : Env A T) (w : World A T)
    (pilot_inputs : List ℚ) (h : pilot_inputs.length ≠ 6) :
    get_control_effort env w pilot_inputs = (.error Err.vector_length, w) := by
  simp [get_control_effort, h]

/-- A pilot-input vector of length 5. -/
theorem get_control_effort_rejects_pilot_length_witness :
    get_control_effort toy_env busy_world [1, 2, 3, 4, 5] = (.error Err.vector_length, busy_world) :=
  get_control_effort_rejects_pilot_length toy_env busy_world [1, 2, 3, 4, 5] (by decide)
/-- C8, as stated, fails: the attitude law returns an effort vector of length 2, and
`get_control_effort` pads it with zeros and returns a mixed vector instead of the length error. -/
theorem get_control_effort_short_effort_counterexample :
    (toy_env.att.get_control_effort short_world.ctl.roll_pitch_pid_controller).length = 2
    ∧ (get_control_effort toy_env short_world [1, 2, 3, 4, 5, 6]).1
        = .ok [3 / 2, 4, 0, 4, 5, 6] := by
  constructor
  · rfl
  · simp [get_control_effort, short_world, busy_world, toy_env, toy_attitude, resize, mix_loop]
    norm_num

/-- C8, amended: whatever the length of the effort vector the control law returns, it is resized
to 6 entries (leading entries kept, missing ones zero); the vector-length error is raised exactly
when the pilot-input vector or the pilot-mix vector is not of length 6, and otherwise, with
weights in [0,1], the output is mixed from the resized effort vector. -/
theorem get_control_effort_resizes_effort (env : Env A T) (w : World A T)
    (pilot_inputs : List ℚ) :
    ((get_control_effort env w pilot_inputs).1 = .error Err.vector_length
      ↔ (pilot_inputs.length ≠ 6 ∨ w.ctl.pilot_mix.length ≠ 6))
    ∧ (pilot_inputs.length = 6 → w.ctl.pilot_mix.length = 6 →
        (∀ x ∈ w.ctl.pilot_mix, 0 ≤ x ∧ x ≤ 1) →
        (get_control_effort env w pilot_inputs).1 =
          .ok ((List.range 6).map fun i =>
            w.ctl.pilot_mix.getD i 0 * pilot_inputs.getD i 0
              + (1 - w.ctl.pilot_mix.getD i 0)
                * (resize (env.att.get_control_effort w.ctl.roll_pitch_pid_controller) 6).getD
                    i 0)) := by
  constructor
  · constructor
    · intro h
      by_contra hc
      push_neg at hc
      unfold get_control_effort at h
      simp only [hc.1, hc.2, resize_length, beq_self_eq_true, Bool.and_self, Bool.not_true,
        Bool.false_eq_true, if_false] at h
      split at h
      · next e he =>
        have := mix_loop_error _ _ _ _ _ _ _ he
        subst this
        simp at h
      · simp at h
    · intro h
      unfold get_control_effort
      rw [if_pos]
      simp only [resize_length, Bool.not_eq_true', Bool.and_eq_false_imp, Bool.and_eq_true,
        beq_iff_eq, beq_eq_false_iff_ne, ne_eq, and_imp]
      intro h1 h2
      rcases h with h | h
      · exact absurd h2 h
      · rw [h2]; exact fun h3 => h h3.symm
  · intro hp hm hr
    unfold get_control_effort
    simp only [hp, hm, resize_length, beq_self_eq_true, Bool.and_self, Bool.not_true,
      Bool.false_eq_true, if_false, mix_loop_six _ _ _ hp (resize_length _ 6) hm hr]

/-- The amended statement at an effort vector of length 2. -/
theorem get_control_effort_resizes_effort_witness :
    (get_control_effort toy_env short_world [1, 2, 3, 4, 5, 6]).1 =
      .ok ((List.range 6).map fun i =>
        short_world.ctl.pilot_mix.getD i 0 * [1, 2, 3, 4, 5, 6].getD i 0
          + (1 - short_world.ctl.pilot_mix.getD i 0)
            * (resize (toy_env.att.get_control_effort
                short_world.ctl.roll_pitch_pid_controller) 6).getD i 0) :=
  (get_control_effort_resizes_effort toy_env short_world [1, 2, 3, 4, 5, 6]).2 rfl rfl
    (by simp [short_world]; norm_num)

/-! ## The tick without a valid mode (C9) -/

/-- C9: when the mode is neither position hold nor attitude stabilization, `tick` ends in the
invalid-mode error and leaves the world as it was: no control law is called, nothing is logged,
the mode is unchanged. The mode the initialiser list of the constructor sets is such a mode. -/
theorem tick_invalid_mode (env : Env A T) (w : World A T)
    (h1 : w.ctl.controller_mode ≠ Mode_Position_Hold_PID)
    (h2 : w.ctl.controller_mode ≠ Mode_Attitude_Stabilization_PID) :
    tick env w = { world := w, error := some Err.invalid_mode }
    ∧ ∀ fs events, tick env { ctl := Control_init env, fs := fs, events := events } =
        { world := { ctl := Control_init env, fs := fs, events := events },
          error := some Err.invalid_mode } := by
  constructor
  · simp [tick, h1, h2]
  · intro fs events
    simp [tick, Control_init, Num_Controller_Modes, Mode_Position_Hold_PID,
      Mode_Attitude_Stabilization_PID]

/-- The tick on a freshly initialised object. -/
theorem tick_invalid_mode_witness :
    tick toy_env toy_world = { world := toy_world, error := some Err.invalid_mode } :=
  (tick_invalid_mode toy_env toy_world (by decide) (by decide)).1

/-! ## Unknown parameter ids (C10) -/

/-- C10: when the trimmed id is none of the recognized ids, `setParameter` leaves the object (mix
weights, mode, both control laws) and the files unchanged and emits only its warning: the
configuration file is not written. -/
theorem setParameter_unknown_id (env : Env A T) (w : World A T) (p : Parameter)
    (h : trim p.id ∉ recognized_ids env) :
    (setParameter env w p).ctl = w.ctl
    ∧ (setParameter env w p).fs = w.fs
    ∧ (setParameter env w p).events =
        w.events ++ [Event.log Severity.warning "Control::setParameter - unknown parameter: "] := by
  simp only [recognized_ids, List.mem_cons, List.mem_singleton, List.not_mem_nil, or_false,
    not_or] at h
  obtain ⟨h1, h2, h3, h4, h5, h6, h7, h8, h9, h10, h11, h12, h13, h14, h15, h16, h17⟩ := h
  have hd : setParameter_dispatch env w (trim p.id) p.value = none := by
    unfold setParameter_dispatch
    rw [if_neg h1, if_neg h2, if_neg h3, if_neg h4, if_neg h5, if_neg h6, if_neg h7, if_neg h8,
      if_neg h9, if_neg h10, if_neg h11, if_neg h12, if_neg h13, if_neg h14, if_neg h15,
      if_neg h16, if_neg h17]
  unfold setParameter
  rw [hd]
  exact ⟨rfl, rfl, rfl⟩

/-- The id MIX_YAW, surrounded by blanks, is not recognized. -/
theorem setParameter_unknown_id_witness :
    (setParameter toy_env busy_world ⟨" MIX_YAW ", 1 / 4, 0⟩).ctl = busy_world.ctl
    ∧ (setParameter toy_env busy_world ⟨" MIX_YAW ", 1 / 4, 0⟩).fs = busy_world.fs
    ∧ (setParameter toy_env busy_world ⟨" MIX_YAW ", 1 / 4, 0⟩).events =
        busy_world.events
          ++ [Event.log Severity.warning "Control::setParameter - unknown parameter: "] :=
  setParameter_unknown_id toy_env busy_world ⟨" MIX_YAW ", 1 / 4, 0⟩ (by decide)
/-! ## Sequences of calls and the mode -/

theorem reachable_run (env : Env A T) (ops : List Op) (w : World A T) (hw : Reachable env w) :
    Reachable env (run env w ops) := by
  induction ops generalizing w with
  | nil => exact hw
  | cons op rest ih => exact ih _ (Reachable.step w op hw)

theorem valid_mode_iff (m : Nat) : valid_mode m ↔ m < Num_Controller_Modes := by
  unfold valid_mode Mode_Attitude_Stabilization_PID Mode_Position_Hold_PID Num_Controller_Modes
  omega

theorem set_roll_mix_mode (w : World A T) (v : ℚ) :
    (set_roll_mix w v).ctl.controller_mode = w.ctl.controller_mode := by
  unfold set_roll_mix
  split <;> rfl

theorem set_pitch_mix_mode (w : World A T) (v : ℚ) :
    (set_pitch_mix w v).ctl.controller_mode = w.ctl.controller_mode := by
  unfold set_pitch_mix
  split <;> rfl

theorem setParameter_mode (env : Env A T) (w : World A T) (p : Parameter) :
    (setParameter env w p).ctl.controller_mode = w.ctl.controller_mode := by
  unfold setParameter
  split
  · rfl
  · next w1 hd =>
    rw [saveFile_ctl]
    rcases setParameter_dispatch_cases env w w1 _ _ hd with rfl | rfl | ⟨a, rfl⟩ | ⟨t, rfl⟩
    · exact set_roll_mix_mode w _
    · exact set_pitch_mix_mode w _
    · rfl
    · rfl

theorem parse_pilot_mix_mode (env : Env A T) (w : World A T) (node : xml_node) :
    (parse_pilot_mix env w node).world.ctl.controller_mode = w.ctl.controller_mode := by
  unfold parse_pilot_mix
  simp only []
  split
  · rfl
  · split_ifs
    · split
      · rfl
      · exact set_roll_mix_mode w _
    · split
      · rfl
      · exact set_pitch_mix_mode w _
    · rfl

theorem tick_fallback_mode (w : World A T) (text : String) :
    (tick_fallback w text).ctl.controller_mode = Mode_Attitude_Stabilization_PID := by
  unfold tick_fallback set_controller_mode
  rw [if_pos (guard_of_lt _ (by decide))]
  simp only []
  split <;> rfl

theorem tick_mode (env : Env A T) (w : World A T) :
    (tick env w).world.ctl.controller_mode = w.ctl.controller_mode
      ∨ (tick env w).world.ctl.controller_mode = Mode_Attitude_Stabilization_PID := by
  unfold tick
  simp only []
  split_ifs <;> first | exact Or.inl rfl | exact Or.inr (tick_fallback_mode _ _)

theorem tick_valid_mode (env : Env A T) (w : World A T) (h : valid_mode w.ctl.controller_mode) :
    (tick env w).error ≠ some Err.invalid_mode := by
  unfold tick
  simp only []
  split_ifs with h1 h2 h3 h4 h5 h6 <;> try simp
  rcases h with h | h
  · first | exact h6 h | exact h2 h | exact h3 h | exact h4 h | exact h5 h
  · exact h1 h

/-! ## Loading a saved document -/

theorem loadFile_node_law (env : Env A T) (w : World A T) (node : xml_node)
    (h1 : to_upper node.name ≠ "MIX") (h2 : to_upper node.name ≠ "MODE") :
    ∃ w1, loadFile_node env w node = { world := w1, error := none }
      ∧ w1.ctl.pilot_mix = w.ctl.pilot_mix
      ∧ w1.ctl.controller_mode = w.ctl.controller_mode := by
  unfold loadFile_node
  simp only [if_neg h1, if_neg h2]
  split_ifs
  · exact ⟨_, rfl, rfl, rfl⟩
  · exact ⟨_, rfl, rfl, rfl⟩
  · exact ⟨_, rfl, rfl, rfl⟩

theorem loadFile_node_mix_roll (env : Env A T) (w : World A T) (text : String) (v : ℚ)
    (h : env.lexical_cast_double (trim text) = some v) :
    loadFile_node env w (xml_node.mk "mix" text [("channel", "roll")] [])
      = { world := set_roll_mix w v, error := none } := by
  have h1 : to_upper "mix" = "MIX" := by decide
  have h2 : to_upper "roll" = "ROLL" := by decide
  simp [loadFile_node, parse_pilot_mix, find_channel, xml_node.name, xml_node.value,
    xml_node.attributes, h1, h2, h]

theorem loadFile_node_mix_pitch (env : Env A T) (w : World A T) (text : String) (v : ℚ)
    (h : env.lexical_cast_double (trim text) = some v) :
    loadFile_node env w (xml_node.mk "mix" text [("channel", "pitch")] [])
      = { world := set_pitch_mix w v, error := none } := by
  have h1 : to_upper "mix" = "MIX" := by decide
  have h2 : to_upper "pitch" = "PITCH" := by decide
  have h3 : to_upper "pitch" ≠ "ROLL" := by decide
  simp [loadFile_node, parse_pilot_mix, find_channel, xml_node.name, xml_node.value,
    xml_node.attributes, h1, h2, h]

theorem loadFile_node_mode_text (env : Env A T) (w : World A T) (text : String) (m : Nat)
    (h : env.lexical_cast_unsigned (trim text) = some m) :
    loadFile_node env w (xml_node.mk "mode" text [] [])
      = { world := set_controller_mode w m, error := none } := by
  have h1 : to_upper "mode" ≠ "MIX" := by decide
  have h2 : to_upper "mode" = "MODE" := by decide
  simp [loadFile_node, parse_mode, xml_node.name, xml_node.value, h1, h2, h]

theorem loadFile_saved_document (env : Env A T) (c : Control A T) (w : World A T)
    (hexists : (w.fs env.calibration_filename).isSome)
    (hfile : w.fs env.controller_param_filename
      = some (FileContent.xml (saveFile_document env c)))
    (htags : law_tags_apart env c) (hcasts : casts_round_trip env c) :
    ∃ w1, w1.ctl.pilot_mix = w.ctl.pilot_mix
      ∧ w1.ctl.controller_mode = w.ctl.controller_mode
      ∧ loadFile env w =
          { world := set_controller_mode
              (set_pitch_mix (set_roll_mix w1 (c.pilot_mix.getD ROLL 0))
                (c.pilot_mix.getD PITCH 0)) c.controller_mode,
            error := none } := by
  obtain ⟨ha1, ha2, ht1, ht2⟩ := htags
  obtain ⟨hr, hp, hm⟩ := hcasts
  have hex : ¬ (w.fs env.calibration_filename).isNone = true := by
    cases h : w.fs env.calibration_filename <;> simp [h] at hexists ⊢
  have hroot : ¬ to_upper "controller_params" ≠ "CONTROLLER_PARAMS" := by decide
  obtain ⟨wa, ea, pa, ma⟩ := loadFile_node_law env
    { w with ctl := { w.ctl with config_file_xml := saveFile_document env c } }
    (env.att.get_xml_node c.roll_pitch_pid_controller) ha1 ha2
  obtain ⟨wt, et, pt, mt⟩ := loadFile_node_law env wa
    (env.trans.get_xml_node c.x_y_pid_controller) ht1 ht2
  refine ⟨wt, by rw [pt, pa], by rw [mt, ma], ?_⟩
  unfold loadFile
  rw [if_neg hex, hfile]
  simp only [saveFile_document, List.head?_cons, xml_node.name, xml_node.children, if_neg hroot]
  simp only [saveFile_document] at ea
  simp only [loadFile_children, ea, et, loadFile_node_mix_roll env _ _ _ hr,
    loadFile_node_mix_pitch env _ _ _ hp, loadFile_node_mode_text env _ _ _ hm]

theorem set_getD_self (l : List ℚ) (i : Nat) : l.set i (l.getD i 0) = l := by
  induction l generalizing i with
  | nil => rfl
  | cons a l ih =>
    cases i with
    | zero => rfl
    | succ i => simpa using ih i

theorem set_roll_mix_own (w : World A T) :
    (set_roll_mix w (w.ctl.pilot_mix.getD ROLL 0)).ctl.pilot_mix = w.ctl.pilot_mix := by
  unfold set_roll_mix
  split
  · exact set_getD_self _ _
  · rfl

theorem set_pitch_mix_own (w : World A T) :
    (set_pitch_mix w (w.ctl.pilot_mix.getD PITCH 0)).ctl.pilot_mix = w.ctl.pilot_mix := by
  unfold set_pitch_mix
  split
  · exact set_getD_self _ _
  · rfl

theorem set_controller_mode_own (w : World A T) :
    (set_controller_mode w w.ctl.controller_mode).ctl.controller_mode
      = w.ctl.controller_mode := by
  unfold set_controller_mode
  split
  · simp only []
    split <;> rfl
  · rfl

theorem toy_casts_saved : casts_round_trip toy_env saved_world.ctl := by
  refine ⟨?_, ?_, ?_⟩
  · simp [toy_env, saved_world, busy_world, ROLL]
    decide
  · simp [toy_env, saved_world, busy_world, PITCH]
    decide
  · decide

theorem toy_tags_saved : law_tags_apart toy_env saved_world.ctl := by
  refine ⟨?_, ?_, ?_, ?_⟩ <;> decide

/-! ## Save then load (C11) -/

/-- C11: `saveFile` followed by `loadFile` returns normally and leaves the pilot-mix vector (so the
ROLL and PITCH weights) and the controller mode as they were, provided the lexical casts read
back what they printed and the law nodes are not tagged `mix` or `mode`. This holds whether or
not the existence test of `loadFile` lets the file be read. -/
theorem save_then_load_round_trip (env : Env A T) (w : World A T)
    (htags : law_tags_apart env w.ctl) (hcasts : casts_round_trip env w.ctl) :
    (loadFile env (saveFile env w)).world.ctl.pilot_mix = w.ctl.pilot_mix
    ∧ (loadFile env (saveFile env w)).world.ctl.controller_mode = w.ctl.controller_mode
    ∧ (loadFile env (saveFile env w)).error = none := by
  by_cases hex : ((saveFile env w).fs env.calibration_filename).isSome
  · obtain ⟨w1, hp, hm, hl⟩ := loadFile_saved_document env w.ctl (saveFile env w) hex
      (by simp [saveFile]) htags hcasts
    rw [saveFile_ctl] at hp hm
    rw [hl]
    refine ⟨?_, ?_, rfl⟩
    · simp only [set_controller_mode_pilot_mix]
      have h1 : (set_roll_mix w1 (w.ctl.pilot_mix.getD ROLL 0)).ctl.pilot_mix
          = w.ctl.pilot_mix := by
        rw [← hp]; exact set_roll_mix_own w1
      have h2 := set_pitch_mix_own (set_roll_mix w1 (w.ctl.pilot_mix.getD ROLL 0))
      rw [h1] at h2
      exact h2
    · have h1 : (set_pitch_mix (set_roll_mix w1 (w.ctl.pilot_mix.getD ROLL 0))
          (w.ctl.pilot_mix.getD PITCH 0)).ctl.controller_mode = w.ctl.controller_mode := by
        rw [set_pitch_mix_mode, set_roll_mix_mode, hm]
      have h2 := set_controller_mode_own (set_pitch_mix
        (set_roll_mix w1 (w.ctl.pilot_mix.getD ROLL 0)) (w.ctl.pilot_mix.getD PITCH 0))
      rw [h1] at h2
      exact h2
  · have hn : ((saveFile env w).fs env.calibration_filename).isNone = true := by
      cases h : (saveFile env w).fs env.calibration_filename <;> simp [h] at hex ⊢
    unfold loadFile
    rw [if_pos hn]
    exact ⟨rfl, rfl, rfl⟩

/-- The round trip at a world in position hold with the weights 0, 1, 1, 1, 1, 1. -/
theorem save_then_load_round_trip_witness :
    (loadFile toy_env (saveFile toy_env saved_world)).world.ctl.pilot_mix
        = saved_world.ctl.pilot_mix
    ∧ (loadFile toy_env (saveFile toy_env saved_world)).world.ctl.controller_mode
        = saved_world.ctl.controller_mode
    ∧ (loadFile toy_env (saveFile toy_env saved_world)).error = none :=
  save_then_load_round_trip toy_env saved_world toy_tags_saved toy_casts_saved

/-! ## A foreign root tag (C12) -/

/-- C12: when the file that `loadFile` reads is a document whose root tag differs from
`controller_params` even up to letter case, whatever its children, `loadFile` returns after one
critical log line: no child is dispatched, the mix weights, the mode and both laws are unchanged
(only the kept document `config_file_xml` is replaced). -/
theorem loadFile_rejects_root (env : Env A T) (w : World A T) (root_node : xml_node)
    (rest : List xml_node)
    (hexists : (w.fs env.calibration_filename).isSome)
    (hfile : w.fs env.controller_param_filename = some (FileContent.xml (root_node :: rest)))
    (hroot : to_upper root_node.name ≠ to_upper "controller_params") :
    (loadFile env w).error = none
    ∧ (loadFile env w).world.events = w.events ++ [Event.log Severity.critical
        "Control::loadFile() Unknown file format.  Cannot load controller parameters."]
    ∧ (loadFile env w).world.ctl = { w.ctl with config_file_xml := root_node :: rest }
    ∧ (loadFile env w).world.ctl.pilot_mix = w.ctl.pilot_mix
    ∧ (loadFile env w).world.ctl.controller_mode = w.ctl.controller_mode := by
  have hroot2 : to_upper root_node.name ≠ "CONTROLLER_PARAMS" := hroot
  have hex : ¬ (w.fs env.calibration_filename).isNone = true := by
    cases h : w.fs env.calibration_filename <;> simp [h] at hexists ⊢
  unfold loadFile
  rw [if_neg hex, hfile]
  simp [hroot2, World.emit]

/-- A document with the root tag `foo` that holds a `mix` and a `mode` node. -/
theorem loadFile_rejects_root_witness :
    (loadFile toy_env { busy_world with fs := foo_files }).world.ctl.pilot_mix
        = busy_world.ctl.pilot_mix
    ∧ (loadFile toy_env { busy_world with fs := foo_files }).world.ctl.controller_mode
        = busy_world.ctl.controller_mode :=
  ⟨(loadFile_rejects_root toy_env { busy_world with fs := foo_files }
      (xml_node.mk "foo" "" []
        [xml_node.mk "mix" "0" [("channel", "roll")] [], xml_node.mk "mode" "0" [] []]) []
      (by decide) (by rfl) (by decide)).2.2.2.1,
   (loadFile_rejects_root toy_env { busy_world with fs := foo_files }
      (xml_node.mk "foo" "" []
        [xml_node.mk "mix" "0" [("channel", "roll")] [], xml_node.mk "mode" "0" [] []]) []
      (by decide) (by rfl) (by decide)).2.2.2.2⟩

/-! ## A missing parameter file (C13) -/

/-- C13 fails on the code: the existence test of `loadFile` looks at `heli::calibration_filename`.
With the calibration file present and the controller-parameter file absent no warning is logged
and the absent file is opened, which ends in the write before the buffer. -/
theorem loadFile_missing_parameter_file :
    toy_env.calibration_filename ≠ toy_env.controller_param_filename
    ∧ (calibration_only toy_env.controller_param_filename).isNone = true
    ∧ (loadFile toy_env { busy_world with fs := calibration_only }).error
        = some Err.undefined_behaviour
    ∧ (loadFile toy_env { busy_world with fs := calibration_only }).world.events
        = busy_world.events := by
  refine ⟨by decide, by rfl, ?_, ?_⟩ <;>
    simp [loadFile, toy_env, calibration_only, busy_world]

/-! ## The other four weights (C14) -/

theorem other_weights_one_closed : MixClosed other_weights_one := by
  intro l v _ _ hl
  constructor
  · refine ⟨by simpa using hl.1, fun i hi h1 h2 => ?_⟩
    rw [List.getElem?_set_ne (Ne.symm h1)]
    exact hl.2 i hi h1 h2
  · refine ⟨by simpa using hl.1, fun i hi h1 h2 => ?_⟩
    rw [List.getElem?_set_ne (Ne.symm h2)]
    exact hl.2 i hi h1 h2

theorem other_weights_one_init : other_weights_one (List.replicate 6 1) := by
  refine ⟨rfl, fun i hi _ _ => ?_⟩
  rw [List.getElem?_replicate]
  simp [hi]

/-- C14: in every world reachable from construction the pilot-mix vector has length 6 and its
four weights other than ROLL and PITCH equal 1. -/
theorem reachable_other_weights (env : Env A T) (w : World A T) (hw : Reachable env w) :
    w.ctl.pilot_mix.length = 6
    ∧ ∀ i, i < 6 → i ≠ ROLL → i ≠ PITCH → w.ctl.pilot_mix[i]? = some 1 :=
  Reachable.mix_induction other_weights_one other_weights_one_closed other_weights_one_init
    env w hw

/-- The invariant after a setter, a parameter, a load, a mode change, a tick and a reset. -/
theorem reachable_other_weights_witness :
    (run toy_env (Control_ctor toy_env no_files).world
        [Op.set_roll_mix (1 / 2), Op.setParameter ⟨"MIX_PITCH", 0, 0⟩, Op.loadFile,
         Op.set_controller_mode 1, Op.tick, Op.reset]).ctl.pilot_mix.length = 6
    ∧ (run toy_env (Control_ctor toy_env no_files).world
        [Op.set_roll_mix (1 / 2), Op.setParameter ⟨"MIX_PITCH", 0, 0⟩, Op.loadFile,
         Op.set_controller_mode 1, Op.tick, Op.reset]).ctl.pilot_mix[5]? = some 1 :=
  ⟨(reachable_other_weights toy_env _
      (reachable_run toy_env _ _ (Reachable.ctor no_files rfl))).1,
   (reachable_other_weights toy_env _
      (reachable_run toy_env _ _ (Reachable.ctor no_files rfl))).2 5 (by decide) (by decide)
      (by decide)⟩

/-! ## Set then get (C15) -/

/-- C15: for `v` in [0,1], after `setParameter` with id `MIX_ROLL` and value `v`, `getParameters`
returns (MIX_ROLL, v), then (MIX_PITCH, the unchanged pitch weight), then the parameters of the
attitude law, then those of the translation law; symmetrically for `MIX_PITCH`. The ids of the
attitude law tested first are assumed to differ from the two mix ids. -/
theorem getParameters_after_setParameter (env : Env A T) (w : World A T) (v : ℚ) (compid : Nat)
    (hv : 0 ≤ v ∧ v ≤ 1) (hlen : PITCH < w.ctl.pilot_mix.length)
    (hids : ∀ id ∈ attitude_gain_ids env, id ≠ PARAM_MIX_ROLL ∧ id ≠ PARAM_MIX_PITCH) :
    getParameters env (setParameter env w ⟨PARAM_MIX_ROLL, v, compid⟩) =
        [Parameter.mk PARAM_MIX_ROLL v env.CONTROLLER_ID,
         Parameter.mk PARAM_MIX_PITCH (w.ctl.pilot_mix.getD PITCH 0) env.CONTROLLER_ID]
          ++ env.att.getParameters w.ctl.roll_pitch_pid_controller
          ++ env.trans.getParameters w.ctl.x_y_pid_controller
    ∧ getParameters env (setParameter env w ⟨PARAM_MIX_PITCH, v, compid⟩) =
        [Parameter.mk PARAM_MIX_ROLL (w.ctl.pilot_mix.getD ROLL 0) env.CONTROLLER_ID,
         Parameter.mk PARAM_MIX_PITCH v env.CONTROLLER_ID]
          ++ env.att.getParameters w.ctl.roll_pitch_pid_controller
          ++ env.trans.getParameters w.ctl.x_y_pid_controller := by
  simp only [attitude_gain_ids, List.mem_cons, List.mem_singleton, List.not_mem_nil, or_false,
    forall_eq_or_imp, forall_eq] at hids
  obtain ⟨⟨a1, b1⟩, ⟨a2, b2⟩, ⟨a3, b3⟩, ⟨a4, b4⟩, ⟨a5, b5⟩, ⟨a6, b6⟩⟩ := hids
  have hR : ROLL < w.ctl.pilot_mix.length := Nat.lt_trans (by decide) hlen
  have hv2 : v ≤ 1 ∧ v ≥ 0 := ⟨hv.2, hv.1⟩
  have hne : PARAM_MIX_PITCH ≠ PARAM_MIX_ROLL := by decide
  have t1 : trim PARAM_MIX_ROLL = PARAM_MIX_ROLL := by decide
  have t2 : trim PARAM_MIX_PITCH = PARAM_MIX_PITCH := by decide
  have d1 : setParameter_dispatch env w PARAM_MIX_ROLL v = some (set_roll_mix w v) := by
    unfold setParameter_dispatch
    rw [if_neg (Ne.symm a1), if_neg (Ne.symm a2), if_neg (Ne.symm a3), if_neg (Ne.symm a4),
      if_neg (Ne.symm a5), if_neg (Ne.symm a6), if_pos rfl]
  have d2 : setParameter_dispatch env w PARAM_MIX_PITCH v = some (set_pitch_mix w v) := by
    unfold setParameter_dispatch
    rw [if_neg (Ne.symm b1), if_neg (Ne.symm b2), if_neg (Ne.symm b3), if_neg (Ne.symm b4),
      if_neg (Ne.symm b5), if_neg (Ne.symm b6), if_neg hne, if_pos rfl]
  constructor
  · unfold setParameter
    simp only [t1, d1]
    unfold getParameters
    rw [saveFile_ctl]
    simp only [set_roll_mix, if_pos hv2, emit_ctl]
    have e1 : (w.ctl.pilot_mix.set ROLL v).getD ROLL 0 = v := by
      simp [List.getD_eq_getElem?_getD, hR]
    have e2 : (w.ctl.pilot_mix.set ROLL v).getD PITCH 0 = w.ctl.pilot_mix.getD PITCH 0 := by
      simp [List.getD_eq_getElem?_getD, List.getElem?_set_ne (show ROLL ≠ PITCH by decide)]
    rw [e1, e2]
  · unfold setParameter
    simp only [t2, d2]
    unfold getParameters
    rw [saveFile_ctl]
    simp only [set_pitch_mix, if_pos hv2, emit_ctl]
    have e1 : (w.ctl.pilot_mix.set PITCH v).getD PITCH 0 = v := by
      simp [List.getD_eq_getElem?_getD, hlen]
    have e2 : (w.ctl.pilot_mix.set PITCH v).getD ROLL 0 = w.ctl.pilot_mix.getD ROLL 0 := by
      simp [List.getD_eq_getElem?_getD, List.getElem?_set_ne (show PITCH ≠ ROLL by decide)]
    rw [e1, e2]

/-- Setting MIX_ROLL to 1/4 in a world with the weights 1/2, 0, 1, 1, 1, 1. -/
theorem getParameters_after_setParameter_witness :
    getParameters toy_env (setParameter toy_env busy_world ⟨PARAM_MIX_ROLL, 1 / 4, 7⟩) =
      [Parameter.mk PARAM_MIX_ROLL (1 / 4) toy_env.CONTROLLER_ID,
       Parameter.mk PARAM_MIX_PITCH (busy_world.ctl.pilot_mix.getD PITCH 0) toy_env.CONTROLLER_ID]
        ++ toy_env.att.getParameters busy_world.ctl.roll_pitch_pid_controller
        ++ toy_env.trans.getParameters busy_world.ctl.x_y_pid_controller :=
  (getParameters_after_setParameter toy_env busy_world (1 / 4) 7 (by norm_num) (by decide)
    (by decide)).1

/-! ## Letter case of the law tags (C16) -/

/-- C16 fails on the code: the tags `attitude_pid` and `translation_outer_pid` are compared
exactly. Written in lower case the two nodes reach the parsers of the laws; written as
`ATTITUDE_PID` and `Translation_Outer_PID` they are logged as unknown nodes and no parser runs. -/
theorem loadFile_law_tags_case_sensitive :
    ((loadFile parsing_env
        { busy_world with fs := law_files "attitude_pid" "translation_outer_pid" }).world.events
        = []
      ∧ (loadFile parsing_env
          { busy_world with fs := law_files "attitude_pid" "translation_outer_pid" }
          ).world.ctl.roll_pitch_pid_controller = [1, 4, 6, 8, 10, 12, 0, 0])
    ∧ ((loadFile parsing_env
        { busy_world with fs := law_files "ATTITUDE_PID" "Translation_Outer_PID" }).world.events
        = [Event.log Severity.warning "Found unknown node: ",
           Event.log Severity.warning "Found unknown node: "]
      ∧ (loadFile parsing_env
          { busy_world with fs := law_files "ATTITUDE_PID" "Translation_Outer_PID" }).world.ctl
        = { busy_world.ctl with config_file_xml :=
            [xml_node.mk "controller_params" "" []
              [xml_node.mk "ATTITUDE_PID" "" [] [],
               xml_node.mk "Translation_Outer_PID" "" [] []]] }) := by
  have h1 : to_upper "controller_params" = "CONTROLLER_PARAMS" := by decide
  have h2 : to_upper "attitude_pid" ≠ "MIX" := by decide
  have h3 : to_upper "attitude_pid" ≠ "MODE" := by decide
  have h4 : to_upper "translation_outer_pid" ≠ "MIX" := by decide
  have h5 : to_upper "translation_outer_pid" ≠ "MODE" := by decide
  have h6 : to_upper "ATTITUDE_PID" ≠ "MIX" := by decide
  have h7 : to_upper "ATTITUDE_PID" ≠ "MODE" := by decide
  have h8 : to_upper "Translation_Outer_PID" ≠ "MIX" := by decide
  have h9 : to_upper "Translation_Outer_PID" ≠ "MODE" := by decide
  refine ⟨⟨?_, ?_⟩, ⟨?_, ?_⟩⟩ <;>
    simp [loadFile, parsing_env, toy_env, law_files, busy_world, loadFile_children,
      loadFile_node, xml_node.name, xml_node.children, h1, h2, h3, h4, h5, h6, h7, h8, h9,
      World.with_attitude, World.with_translation, World.emit, toy_attitude, toy_translation]

/-! ## No fall-through in the tick (C17) -/

/-- C17 fails on the code: the position-hold branch of `operator()` ends in `return`. After a
failure of the translation law the mode is attitude stabilization, but the trace of the tick
holds no call of the attitude law. -/
theorem tick_fallback_skips_attitude :
    ((tick toy_env stalled_world).world.events
        = [Event.log Severity.warning
            "Control: translation controller reports it is not runnable.  Switching to attitude control.",
           Event.mode_changed Mode_Attitude_Stabilization_PID,
           Event.log Severity.warning "Controller mode changed to: "]
      ∧ (tick toy_env stalled_world).world.ctl.controller_mode
          = Mode_Attitude_Stabilization_PID)
    ∧ ((tick toy_env lost_world).world.events
        = [Event.translation_invoked [],
           Event.log Severity.warning
            "Caught exception from Translational PID, switching to attitude stabilization mode",
           Event.mode_changed Mode_Attitude_Stabilization_PID,
           Event.log Severity.warning "Controller mode changed to: "]
      ∧ (tick toy_env lost_world).world.ctl.controller_mode
          = Mode_Attitude_Stabilization_PID) := by
  have hg : promoted 0 < promoted 2 := guard_of_lt 0 (by decide)
  refine ⟨⟨?_, ?_⟩, ⟨?_, ?_⟩⟩ <;>
    simp [tick, stalled_world, lost_world, busy_world, toy_env, toy_translation, tick_fallback,
      set_controller_mode, World.emit, World.with_translation, Mode_Position_Hold_PID,
      Mode_Attitude_Stabilization_PID, Num_Controller_Modes, hg]

/-! ## Valid modes do not stay valid (C18) -/

/-- C18 fails on the code: the guard of `set_controller_mode` is a signed comparison. From a
world in position hold, `loadFile` on a well-rooted document whose `mode` node reads 4294967295
stores that value, which is no operating mode, and the next tick ends in the invalid-mode error;
`set_controller_mode(4294967295)` does the same. -/
theorem valid_mode_lost_on_load :
    valid_mode busy_world.ctl.controller_mode
    ∧ (¬ valid_mode
        (step toy_env { busy_world with fs := top_bit_files } Op.loadFile).ctl.controller_mode
      ∧ (tick toy_env (step toy_env { busy_world with fs := top_bit_files } Op.loadFile)).error
          = some Err.invalid_mode)
    ∧ (¬ valid_mode
        (step toy_env busy_world (Op.set_controller_mode 4294967295)).ctl.controller_mode
      ∧ (tick toy_env (step toy_env busy_world (Op.set_controller_mode 4294967295))).error
          = some Err.invalid_mode) := by
  have gt : promoted 4294967295 < promoted Num_Controller_Modes := by
    rw [guard_iff]; decide
  have hl : (step toy_env { busy_world with fs := top_bit_files }
      Op.loadFile).ctl.controller_mode = 4294967295 := by
    show (loadFile toy_env { busy_world with fs := top_bit_files }).world.ctl.controller_mode
      = 4294967295
    rw [loadFile_top_bit]
    exact set_controller_mode_stored _ _ gt
  have hs : (step toy_env busy_world
      (Op.set_controller_mode 4294967295)).ctl.controller_mode = 4294967295 :=
    set_controller_mode_stored _ _ gt
  have hv : ¬ valid_mode 4294967295 := by
    rw [valid_mode_iff]; decide
  have ht : ∀ w : World (List ℚ) (List ℚ), w.ctl.controller_mode = 4294967295 →
      (tick toy_env w).error = some Err.invalid_mode := by
    intro w hw
    simp [tick, hw, Mode_Position_Hold_PID, Mode_Attitude_Stabilization_PID]
  exact ⟨Or.inr rfl, ⟨by rw [hl]; exact hv, ht _ hl⟩, ⟨by rw [hs]; exact hv, ht _ hs⟩⟩

/-! ## Loading the saved document elsewhere (C19) -/

/-- C19: let `w` be a world with a valid mode, weights in [0,1] and a vector holding the ROLL and
PITCH entries, and let another object hold them too. When `loadFile` reads in that object the
document `saveFile` wrote in `w`, it returns normally, the ROLL weight, the PITCH weight and the
mode become those of `w`, and the other weights of the object are untouched. The lexical casts
are assumed to read back what they printed, the law nodes not to be tagged `mix` or `mode`. -/
theorem load_saved_into_other (env : Env A T) (w : World A T) (other : Control A T)
    (events : List Event)
    (hexists : ((saveFile env w).fs env.calibration_filename).isSome)
    (hmode : valid_mode w.ctl.controller_mode)
    (hrange : mix_in_range w.ctl)
    (hlen : PITCH < w.ctl.pilot_mix.length) (hother : PITCH < other.pilot_mix.length)
    (htags : law_tags_apart env w.ctl) (hcasts : casts_round_trip env w.ctl) :
    (load_saved env w other events).error = none
    ∧ (load_saved env w other events).world.ctl.pilot_mix[ROLL]? = w.ctl.pilot_mix[ROLL]?
    ∧ (load_saved env w other events).world.ctl.pilot_mix[PITCH]? = w.ctl.pilot_mix[PITCH]?
    ∧ (load_saved env w other events).world.ctl.controller_mode = w.ctl.controller_mode
    ∧ ∀ i, i ≠ ROLL → i ≠ PITCH →
        (load_saved env w other events).world.ctl.pilot_mix[i]? = other.pilot_mix[i]? := by
  have hR : ROLL < w.ctl.pilot_mix.length := Nat.lt_trans (by decide) hlen
  have hR2 : ROLL < other.pilot_mix.length := Nat.lt_trans (by decide) hother
  obtain ⟨w1, hp, hm, hl⟩ := loadFile_saved_document env w.ctl
    { ctl := other, fs := (saveFile env w).fs, events := events } hexists
    (by simp [saveFile]) htags hcasts
  simp only [] at hp hm
  have gr : w.ctl.pilot_mix.getD ROLL 0 = w.ctl.pilot_mix[ROLL] := List.getD_eq_getElem _ 0 hR
  have gp : w.ctl.pilot_mix.getD PITCH 0 = w.ctl.pilot_mix[PITCH] :=
    List.getD_eq_getElem _ 0 hlen
  have vr := hrange _ (List.getElem_mem hR)
  have vp := hrange _ (List.getElem_mem hlen)
  have hmlt := (valid_mode_iff _).1 hmode
  have hmix : (set_controller_mode (set_pitch_mix (set_roll_mix w1
      (w.ctl.pilot_mix.getD ROLL 0)) (w.ctl.pilot_mix.getD PITCH 0))
      w.ctl.controller_mode).ctl.pilot_mix
        = (other.pilot_mix.set ROLL w.ctl.pilot_mix[ROLL]).set PITCH w.ctl.pilot_mix[PITCH] := by
    rw [set_controller_mode_pilot_mix, gr, gp]
    simp [set_pitch_mix, set_roll_mix, vr.1, vr.2, vp.1, vp.2, hp]
  have hmo : (set_controller_mode (set_pitch_mix (set_roll_mix w1
      (w.ctl.pilot_mix.getD ROLL 0)) (w.ctl.pilot_mix.getD PITCH 0))
      w.ctl.controller_mode).ctl.controller_mode = w.ctl.controller_mode := by
    exact set_controller_mode_stored _ _ (guard_of_lt _ hmlt)
  unfold load_saved
  rw [hl]
  simp only [hmix, hmo]
  refine ⟨trivial, ?_, ?_, trivial, ?_⟩
  · rw [List.getElem?_set_ne (show PITCH ≠ ROLL by decide)]
    simp [hR, hR2]
  · simp [hlen, hother]
  · intro i h1 h2
    rw [List.getElem?_set_ne (Ne.symm h2), List.getElem?_set_ne (Ne.symm h1)]

/-- The document saved in position hold with the weights 0, 1, .. loaded into a fresh object. -/
theorem load_saved_into_other_witness :
    (load_saved toy_env saved_world (Control_init toy_env) []).error = none
    ∧ (load_saved toy_env saved_world (Control_init toy_env) []).world.ctl.pilot_mix[ROLL]?
        = some 0
    ∧ (load_saved toy_env saved_world (Control_init toy_env) []).world.ctl.controller_mode
        = Mode_Position_Hold_PID :=
  ⟨(load_saved_into_other toy_env saved_world (Control_init toy_env) [] (by decide)
      (Or.inr rfl) (by simp [mix_in_range, saved_world]) (by decide) (by decide)
      toy_tags_saved toy_casts_saved).1,
   (load_saved_into_other toy_env saved_world (Control_init toy_env) [] (by decide)
      (Or.inr rfl) (by simp [mix_in_range, saved_world]) (by decide) (by decide)
      toy_tags_saved toy_casts_saved).2.1,
   (load_saved_into_other toy_env saved_world (Control_init toy_env) [] (by decide)
      (Or.inr rfl) (by simp [mix_in_range, saved_world]) (by decide) (by decide)
      toy_tags_saved toy_casts_saved).2.2.2.1⟩

/-! ## What the mixing depends on (C20) -/

/-- C20: two worlds that agree on the pilot-mix vector and on the effort vector of the attitude
law give the same result of `get_control_effort` (vector or error) for the same pilot inputs,
whatever their mode, reference position and translation law; and the call leaves the object,
so the mode and the weights, and the files unchanged. -/
theorem get_control_effort_depends_on (env : Env A T) (w1 w2 : World A T)
    (pilot_inputs : List ℚ)
    (hmix : w1.ctl.pilot_mix = w2.ctl.pilot_mix)
    (heff : env.att.get_control_effort w1.ctl.roll_pitch_pid_controller
      = env.att.get_control_effort w2.ctl.roll_pitch_pid_controller) :
    (get_control_effort env w1 pilot_inputs).1 = (get_control_effort env w2 pilot_inputs).1
    ∧ (get_control_effort env w1 pilot_inputs).2.ctl = w1.ctl
    ∧ (get_control_effort env w1 pilot_inputs).2.fs = w1.fs := by
  unfold get_control_effort
  simp only [hmix, heff]
  refine ⟨?_, ?_, ?_⟩
  · split_ifs
    · rfl
    · split <;> rfl
  · split_ifs
    · rfl
    · split <;> rfl
  · split_ifs
    · rfl
    · split <;> rfl

/-- Two worlds that differ in mode, reference position and translation law. -/
theorem get_control_effort_depends_on_witness :
    (get_control_effort toy_env busy_world [1, 2, 3, 4, 5, 6]).1
      = (get_control_effort toy_env idle_world [1, 2, 3, 4, 5, 6]).1
    ∧ busy_world.ctl.controller_mode ≠ idle_world.ctl.controller_mode
    ∧ busy_world.ctl.reference_position ≠ idle_world.ctl.reference_position :=
  ⟨(get_control_effort_depends_on toy_env busy_world idle_world [1, 2, 3, 4, 5, 6] rfl rfl).1,
   by decide, by simp [busy_world, idle_world]⟩

end Autopilot
